import Mathlib

/-!
Verification of the crew-dashboard data normalization and metrics engine.

Python strings are modelled as `List Char` (`Str`), numeric values coming from
Python `float` arithmetic as `ℚ` (all quantities involved are small exact
rationals: minutes, HH:MM conversions, percentages), Python `int` as `ℤ`,
dictionaries as insertion-ordered association lists, and `None`-returning
functions as `Option`-valued functions.
-/

set_option linter.unusedVariables false

abbrev Str := List Char

/-- Python `str.isspace` characters relevant here (ASCII whitespace, which is
what `\s` and `.strip()` see on the report data handled by the processor). -/
def pyIsSpace (c : Char) : Bool :=
  c = ' ' ∨ c = '\t' ∨ c = '\n' ∨ c = '\r' ∨ c = '\x0b' ∨ c = '\x0c'

/-- Python `str.strip()`: remove whitespace from both ends. -/
def pyStrip (s : Str) : Str :=
  ((s.dropWhile pyIsSpace).reverse.dropWhile pyIsSpace).reverse

/-- Python `str.lower()` restricted to ASCII (report headers are ASCII). -/
def pyLower (s : Str) : Str := s.map Char.toLower

/-- Python `str.upper()` restricted to ASCII. -/
def pyUpper (s : Str) : Str := s.map Char.toUpper

/-- Python `str.split(sep)` for a one-character separator:
`''.split('/') = ['']`, and every separator occurrence produces a boundary. -/
def pySplit (sep : Char) : Str → List Str
  | [] => [[]]
  | c :: cs =>
    if c = sep then [] :: pySplit sep cs
    else
      match pySplit sep cs with
      | [] => [[c]]
      | p :: ps => (c :: p) :: ps

/-- Numeric value of a list of decimal digit characters. -/
def digitsVal (s : Str) : Nat :=
  s.foldl (fun acc c => acc * 10 + (c.toNat - '0'.toNat)) 0

/-- Python `int(s)`: optional surrounding whitespace, optional sign, at least
one decimal digit.  (Exotic accepted forms — underscores between digits,
non-ASCII digits — do not occur in this data and are not modelled.) -/
def pyInt (s : Str) : Option Int :=
  let t := pyStrip s
  match t with
  | '+' :: ds => if ds ≠ [] ∧ ds.all Char.isDigit then some (digitsVal ds) else none
  | '-' :: ds => if ds ≠ [] ∧ ds.all Char.isDigit then some (-(digitsVal ds : Int)) else none
  | ds => if ds ≠ [] ∧ ds.all Char.isDigit then some (digitsVal ds) else none

/-- Fuel-based digit printer (structural recursion, so that it reduces in the
kernel); `natToStr` supplies enough fuel for any input. -/
def natToStrAux : Nat → Nat → Str
  | 0, _ => []
  | f + 1, n =>
    if n < 10 then [Nat.digitChar n]
    else natToStrAux f (n / 10) ++ [Nat.digitChar (n % 10)]

/-- Decimal representation of a natural number (`str(n)` for `n ≥ 0`). -/
def natToStr (n : Nat) : Str := natToStrAux (n + 1) n

theorem natToStrAux_congr : ∀ f g n, n < f → n < g → natToStrAux f n = natToStrAux g n := by
  intro f
  induction f with
  | zero => intro g n h; omega
  | succ f ih =>
    intro g n hf hg
    cases g with
    | zero => omega
    | succ g =>
      simp only [natToStrAux]
      by_cases h10 : n < 10
      · simp [h10]
      · simp only [h10, if_false]
        have : n / 10 < n := Nat.div_lt_self (by omega) (by omega)
        rw [ih g (n / 10) (by omega) (by omega)]

theorem natToStr_eq (n : Nat) :
    natToStr n = if n < 10 then [Nat.digitChar n]
                 else natToStr (n / 10) ++ [Nat.digitChar (n % 10)] := by
  show natToStrAux (n + 1) n = _
  by_cases h10 : n < 10
  · simp [natToStrAux, h10]
  · simp only [natToStrAux, h10, if_false]
    have : n / 10 < n := Nat.div_lt_self (by omega) (by omega)
    rw [natToStrAux_congr n (n / 10 + 1) (n / 10) (by omega) (by omega)]
    rfl

/-- Python `f"{n:02d}"` for `n ≥ 0`: pad with a leading zero to width 2. -/
def fmt2 (n : Nat) : Str :=
  if n < 10 then ['0', Nat.digitChar n] else natToStr n

/-- Python `s[-2:]`: the last two characters (the whole string if shorter). -/
def strLast2 (s : Str) : Str := s.drop (s.length - 2)

/-- `DataProcessor.parse_time` (src/data_processor.py:279-287): parse `"HH:MM"`
to minutes from midnight; `None` unless the string contains a colon and its
first two colon-separated fields are integers. -/
def parse_time (time_str : Str) : Option Int :=
  if time_str = [] ∨ ¬ time_str.contains ':' then none
  else
    match pySplit ':' time_str with
    | p0 :: p1 :: _ =>
      match pyInt p0, pyInt p1 with
      | some h, some m => some (h * 60 + m)
      | _, _ => none
    | _ => none

/-- `utils.date_utils.parse_time_to_minutes` (src/utils/date_utils.py:117-157):
accepts `"HH:MM"` (colon form, integer fields) and 4-digit `"HHMM"`;
`None` on everything else.  The colon branch returns (possibly `None`)
whenever a colon is present, since `split(':')` then has at least two parts. -/
def parse_time_to_minutes (time_str : Str) : Option Int :=
  if time_str = [] then none
  else
    let t := pyStrip time_str
    if t.contains ':' then
      match pySplit ':' t with
      | p0 :: p1 :: _ =>
        match pyInt p0, pyInt p1 with
        | some h, some m => some (h * 60 + m)
        | _, _ => none
      | _ => none
    else if t.length = 4 ∧ t.all Char.isDigit then
      some ((digitsVal (t.take 2) : Int) * 60 + digitsVal (t.drop 2))
    else none

/-- Calendar date (proleptic Gregorian, as used by Python `datetime.date`). -/
structure CalDate where
  year : Nat
  month : Nat
  day : Nat
deriving DecidableEq, Repr

def isLeap (y : Nat) : Bool :=
  (y % 4 = 0 ∧ y % 100 ≠ 0) ∨ y % 400 = 0

def daysInMonth (y m : Nat) : Nat :=
  if m = 2 then (if isLeap y then 29 else 28)
  else if m = 4 ∨ m = 6 ∨ m = 9 ∨ m = 11 then 30
  else 31

def validDate (d : CalDate) : Prop :=
  1 ≤ d.year ∧ d.year ≤ 9999 ∧ 1 ≤ d.month ∧ d.month ≤ 12 ∧
  1 ≤ d.day ∧ d.day ≤ daysInMonth d.year d.month

instance (d : CalDate) : Decidable (validDate d) := by
  unfold validDate; infer_instance

/-- `date - timedelta(days=1)`: the previous calendar day. -/
def predDate (d : CalDate) : CalDate :=
  if d.day > 1 then ⟨d.year, d.month, d.day - 1⟩
  else if d.month > 1 then ⟨d.year, d.month - 1, daysInMonth d.year (d.month - 1)⟩
  else ⟨d.year - 1, 12, 31⟩

/-- Specification-side successor of a calendar day (used to state that the
code's "minus one calendar day" is genuine calendar arithmetic). -/
def nextDate (d : CalDate) : CalDate :=
  if d.day < daysInMonth d.year d.month then ⟨d.year, d.month, d.day + 1⟩
  else if d.month < 12 then ⟨d.year, d.month + 1, 1⟩
  else ⟨d.year + 1, 1, 1⟩

/-- `f"{d.day:02d}/{d.month:02d}/{str(d.year)[-2:]}"` — the operating-date
output format of `get_operating_date`. -/
def fmtPyDate (d : CalDate) : Str :=
  fmt2 d.day ++ '/' :: fmt2 d.month ++ '/' :: strLast2 (natToStr d.year)

/-- A `"DD/MM/YY"` string built from numeric components. -/
def fmtDMY (day month y2 : Nat) : Str :=
  fmt2 day ++ '/' :: fmt2 month ++ '/' :: fmt2 y2

/-- `DataProcessor.get_operating_date` (src/data_processor.py:289-320).
Departures before 04:00 are pushed to the previous calendar day via
`date(year, month, day) - timedelta(days=1)`; any parse failure
(`ValueError`/`TypeError`/`IndexError`, in particular an invalid calendar
date) returns `calendar_date` unchanged.  The one uncaught exception in the
source — `OverflowError` from `date(1,1,1) - timedelta(1)` — is unreachable
from the parser (normalized years are ≥ 2000) and is mapped to
`calendar_date` here. -/
def get_operating_date (calendar_date : Str) (time_str : Str) : Str :=
  if time_str = [] then calendar_date
  else
    match parse_time time_str with
    | none => calendar_date
    | some t =>
      if t < 240 then
        match pySplit '/' calendar_date with
        | p0 :: p1 :: p2 :: _ =>
          match pyInt p0, pyInt p1, pyInt p2 with
          | some di, some mi, some yi =>
            let yr : Int := if yi < 100 then yi + 2000 else yi
            if 1 ≤ di ∧ 1 ≤ mi ∧ 1 ≤ yr ∧ yr ≤ 9999 ∧
               validDate ⟨yr.toNat, mi.toNat, di.toNat⟩ then
              if yr = 1 ∧ mi = 1 ∧ di = 1 then calendar_date
              else fmtPyDate (predDate ⟨yr.toNat, mi.toNat, di.toNat⟩)
            else calendar_date
          | _, _, _ => calendar_date
        | _ => calendar_date
      else calendar_date

/-- `DataProcessor.normalize_date` (src/data_processor.py:334-352): collapse a
slash-separated date to `DD/MM/YY` (zero-padded day/month, last two digits of
the year, default year `"26"`); everything else passes through unchanged. -/
def normalize_date (date_str : Str) : Str :=
  if date_str = [] then []
  else
    let s := pyStrip date_str
    if s.contains '/' then
      match pySplit '/' s with
      | p0 :: p1 :: rest =>
        let day := if p0.length < 2 then List.replicate (2 - p0.length) '0' ++ p0 else p0
        let month := if p1.length < 2 then List.replicate (2 - p1.length) '0' ++ p1 else p1
        let year := match rest with
          | [] => ['2', '6']
          | p2 :: _ => strLast2 p2
        day ++ '/' :: month ++ '/' :: year
      | _ => s
    else s

/-- The block-minutes credit of a flight, as computed identically in
`process_dayrep_csv` (src/data_processor.py:519-530) and `_calculate_kpi_maps`
(src/data_processor.py:1806-1816): `sta − std`, plus 1440 when negative;
no contribution (0) when either time fails to parse. -/
def block_minutes (std_s sta_s : Str) : Int :=
  match parse_time std_s, parse_time sta_s with
  | some s, some a => if a - s < 0 then a - s + 1440 else a - s
  | _, _ => 0

-- ===== sanity examples (temporal utilities) =====

example : parse_time "10:30".toList = some 630 := by decide
example : parse_time "1030".toList = none := by decide
example : parse_time_to_minutes "1030".toList = some 630 := by decide
example : parse_time_to_minutes "10:30".toList = some 630 := by decide
example : parse_time_to_minutes "abc".toList = none := by decide
example : get_operating_date "01/03/26".toList "00:30".toList = "28/02/26".toList := by decide
example : get_operating_date "01/03/24".toList "00:30".toList = "29/02/24".toList := by decide
example : get_operating_date "15/01/26".toList "10:00".toList = "15/01/26".toList := by decide
example : block_minutes "23:50".toList "00:10".toList = 20 := by decide
example : block_minutes "10:00".toList "11:30".toList = 90 := by decide
example : block_minutes "".toList "10:00".toList = 0 := by decide
example : normalize_date "5/1/2026".toList = "05/01/26".toList := by decide

-- ===== Compliance tiers =====

/-- `DataProcessor.get_alert_status` (src/data_processor.py:1850-1869):
strict thresholds, `critical` above 95, `warning` above 85, else `normal`. -/
def get_alert_status (block_hours : ℚ) : Str :=
  if block_hours > 95 then "critical".toList
  else if block_hours > 85 then "warning".toList
  else "normal".toList

/-- The alert classification of the live/AIMS path,
`AIMSSoapClient.calculate_rolling_28day_hours` (src/aims_soap_client.py:585-591):
the same strict thresholds, duplicated inline. -/
def aims_alert_status (total_hours : ℚ) : Str :=
  if total_hours > 95 then "critical".toList
  else if total_hours > 85 then "warning".toList
  else "normal".toList

/-- The status computed by the rolling-hours report parser,
`process_rolcrtot_csv` (src/data_processor.py:881-888): the percentage is
`hours_28day / 100 * 100` (exactly `hours_28day` over exact arithmetic) and
the thresholds are *inclusive* (`>= 95`, `>= 85`). -/
def rolcrtot_status (hours_28day : ℚ) : Str :=
  let percentage := hours_28day / 100 * 100
  if percentage ≥ 95 then "critical".toList
  else if percentage ≥ 85 then "warning".toList
  else "normal".toList

/-- `parse_hours` inside `process_rolcrtot_csv` (src/data_processor.py:869-876):
`"HH:MM"` to decimal hours, `0.0` on anything else.  The two fields are
integers in the report; `float()` is modelled by integer parsing. -/
def parse_hours (time_str : Str) : ℚ :=
  if time_str.contains ':' then
    match pySplit ':' time_str with
    | p0 :: p1 :: _ =>
      match pyInt p0, pyInt p1 with
      | some h, some m => (h : ℚ) + (m : ℚ) / 60
      | _, _ => 0
    | _ => 0
  else 0

/-- Round-half-even to `k` decimal places over exact rationals, modelling
Python `round(x, k)` (ties broken to even; binary-float tie artifacts do not
arise at the values handled in the claims). -/
def pyRound (k : Nat) (x : ℚ) : ℚ :=
  let y := x * (10 : ℚ) ^ k
  let n := ⌊y⌋
  let frac := y - n
  let r : ℤ :=
    if frac < 1 / 2 then n
    else if frac > 1 / 2 then n + 1
    else if n % 2 = 0 then n else n + 1
  (r : ℚ) / (10 : ℚ) ^ k

/-- A record of the rolling 28-day/12-month block-hours collection
(`RollingHoursRecord`). -/
structure RollingRec where
  id : Str
  name : Str
  seniority : Str
  block_28day : Str
  block_12month : Str
  hours_28day : ℚ
  hours_12month : ℚ
  percentage : ℚ
  status : Str
deriving DecidableEq, Repr

/-- The record built for one data row of the rolling-hours report
(`process_rolcrtot_csv`, src/data_processor.py:853-900), given the stripped
fixed-position fields. -/
def mkRollingRec (crew_id name seniority b28 b12m : Str) : RollingRec :=
  let hours_28day := parse_hours b28
  let hours_12month := parse_hours b12m
  let percentage := hours_28day / 100 * 100
  { id := crew_id, name := name, seniority := seniority,
    block_28day := b28, block_12month := b12m,
    hours_28day := pyRound 2 hours_28day,
    hours_12month := pyRound 2 hours_12month,
    percentage := pyRound 1 percentage,
    status := rolcrtot_status hours_28day }

-- ===== Association-list maps (Python dict / defaultdict) =====

/-- Update-or-insert preserving insertion order (Python `dict.__setitem__` /
`defaultdict` access): a missing key is appended with `f dflt`. -/
def updMap [DecidableEq κ] (k : κ) (dflt : ν) (f : ν → ν) : List (κ × ν) → List (κ × ν)
  | [] => [(k, f dflt)]
  | (k', v) :: rest => if k' = k then (k', f v) :: rest else (k', v) :: updMap k dflt f rest

/-- Lookup with default (`defaultdict` read without insertion / `dict.get`). -/
def getMap [DecidableEq κ] (k : κ) (dflt : ν) : List (κ × ν) → ν
  | [] => dflt
  | (k', v) :: rest => if k' = k then v else getMap k dflt rest

/-- Key membership (`k in dict`). -/
def memMap [DecidableEq κ] (k : κ) : List (κ × ν) → Bool
  | [] => false
  | (k', _) :: rest => k' = k ∨ memMap k rest

/-- Python `set.add` on a list-as-set (order of insertion kept; the sets in
the source are only ever measured, sorted or membership-tested, so any
duplicate-free representative is faithful). -/
def addSet [DecidableEq α] (x : α) (l : List α) : List α :=
  if x ∈ l then l else l ++ [x]

/-- Stable insertion before the first strictly greater element. -/
def stInsert (lt : α → α → Bool) (x : α) : List α → List α
  | [] => [x]
  | y :: ys => if lt x y then x :: y :: ys else y :: stInsert lt x ys

/-- Stable sort (left-to-right insertion), matching Python's stable `sort`
for the given strict comparator. -/
def stSort (lt : α → α → Bool) (l : List α) : List α :=
  l.foldl (fun acc x => stInsert lt x acc) []

/-- Strict lexicographic order on strings (Python `<` on `str`, code points). -/
def strLt : Str → Str → Bool
  | [], [] => false
  | [], _ :: _ => true
  | _ :: _, [] => false
  | a :: as, b :: bs => if a < b then true else if b < a then false else strLt as bs

-- ===== Crew extraction =====

def isUpperAZ (c : Char) : Bool := 'A' ≤ c ∧ c ≤ 'Z'

/-- Fuel-based scanner for `re.findall(r'\(([A-Z]{2})\)\s*(\d+)', s)`
(`extract_crew_ids`, src/data_processor.py:322-326): non-overlapping
left-to-right matches of `(ROLE) ID`; on a failed attempt the scan resumes
one character later, on a match it resumes after the digits. -/
def extract_crew_ids_aux : Nat → Str → List (Str × Str)
  | 0, _ => []
  | _ + 1, [] => []
  | fuel + 1, '(' :: a :: b :: ')' :: rest =>
    if isUpperAZ a ∧ isUpperAZ b then
      let rest1 := rest.dropWhile pyIsSpace
      let ds := rest1.takeWhile Char.isDigit
      if ds = [] then extract_crew_ids_aux fuel (a :: b :: ')' :: rest)
      else ([a, b], ds) :: extract_crew_ids_aux fuel (rest1.drop ds.length)
    else extract_crew_ids_aux fuel (a :: b :: ')' :: rest)
  | fuel + 1, _ :: rest => extract_crew_ids_aux fuel rest

/-- `DataProcessor.extract_crew_ids`: list of `(role, crew_id)` pairs. -/
def extract_crew_ids (crew_string : Str) : List (Str × Str) :=
  extract_crew_ids_aux (crew_string.length + 1) crew_string

/-- `DataProcessor.get_crew_set_key` (src/data_processor.py:328-332): the
sorted tuple of crew IDs of a crew string. -/
def get_crew_set_key (crew_string : Str) : List Str :=
  stSort strLt ((extract_crew_ids crew_string).map Prod.snd)

/-- Python `sub in s` substring test. -/
def strIn (sub s : Str) : Bool := decide (sub <:+: s)

/-- `DataProcessor._infer_ac_type` (src/data_processor.py:395-406). -/
def infer_ac_type (reg : Str) : Str :=
  if reg = [] then "A320".toList
  else
    let u := pyUpper reg
    if strIn "A6".toList u ∨ strIn "A321".toList u ∨ strIn "321".toList u then "A321".toList
    else if strIn "A33".toList u ∨ strIn "A330".toList u ∨ strIn "330".toList u then "A330".toList
    else if strIn "32W".toList u ∨ strIn "C90W".toList u then "A320neo".toList
    else "A320".toList

-- ===== sanity examples (crew extraction, tiers) =====

example : extract_crew_ids "-A(CP) 111-B(FO) 222".toList =
    [( "CP".toList, "111".toList ), ( "FO".toList, "222".toList )] := by decide
example : get_crew_set_key "-A(CP) 222-B(FO) 111".toList =
    [ "111".toList, "222".toList ] := by decide
/-- Evaluation helper: `parse_hours` on a well-formed `"HH:MM"` string. -/
theorem parse_hours_eval (s p0 p1 : Str) (rest : List Str) (x y : Int)
    (hc : s.contains ':' = true) (hsplit : pySplit ':' s = p0 :: p1 :: rest)
    (h0 : pyInt p0 = some x) (h1 : pyInt p1 = some y) :
    parse_hours s = (x : ℚ) + (y : ℚ) / 60 := by
  unfold parse_hours
  rw [hc, hsplit]
  simp [h0, h1]

example : get_alert_status 85 = "normal".toList := by norm_num [get_alert_status]
example : rolcrtot_status 85 = "warning".toList := by norm_num [rolcrtot_status]
example : parse_hours "85:30".toList = 171 / 2 := by
  rw [parse_hours_eval "85:30".toList "85".toList "30".toList [] 85 30
    (by decide) (by decide) (by decide) (by decide)]
  norm_num

-- ===== Flight-report extractor (process_dayrep_csv) =====

/-- One CSV row (list of cell strings). -/
abbrev Row := List Str

/-- A canonical flight record (`FlightRecord`). -/
structure Flight where
  date : Str
  calendar_date : Str
  reg : Str
  ac_type : Str
  flt : Str
  dep : Str
  arr : Str
  std : Str
  sta : Str
  crew : Str
deriving DecidableEq, Repr

/-- Column map produced by `detect_csv_format` (src/data_processor.py:354-393). -/
structure ColMap where
  date : Nat
  reg : Nat
  flt : Nat
  dep : Nat
  arr : Nat
  std : Nat
  sta : Nat
  crew : Nat
  has_crew : Bool
deriving DecidableEq, Repr

/-- The fixed default layout used when no header row is recognized
(src/data_processor.py:468-473). -/
def defaultColMap : ColMap :=
  { date := 0, reg := 1, flt := 2, dep := 3, arr := 4, std := 5, sta := 6,
    crew := 14, has_crew := true }

/-- `DataProcessor.detect_csv_format`: start from the default layout, then
overwrite each index whose (lowercased, stripped) header name matches exactly;
`has_crew` iff a `crew` column exists or the row is wider than 14 cells. -/
def detect_csv_format (header_row : Row) : ColMap :=
  let header_lower := header_row.map (fun h => pyStrip (pyLower h))
  let base : ColMap :=
    { date := 0, reg := 1, flt := 2, dep := 3, arr := 4, std := 5, sta := 6,
      crew := 14, has_crew := false }
  let cm := header_lower.enum.foldl (fun cm (p : Nat × Str) =>
    let (i, h) := p
    if h = "date".toList then { cm with date := i }
    else if h = "reg".toList then { cm with reg := i }
    else if h = "flt".toList then { cm with flt := i }
    else if h = "dep".toList then { cm with dep := i }
    else if h = "arr".toList then { cm with arr := i }
    else if h = "std".toList then { cm with std := i }
    else if h = "sta".toList then { cm with sta := i }
    else if h = "crew".toList then { cm with crew := i }
    else cm) base
  { cm with has_crew := header_lower.contains "crew".toList ∨ header_row.length > 14 }

/-- Header search of `process_dayrep_csv` (src/data_processor.py:459-465):
the first of the first five rows with ≥ 6 cells containing `date` and
(`reg` or `flt`) after lowercasing/stripping. -/
def find_dayrep_header (rows : List Row) : Option (Nat × Row) :=
  (rows.take 5).enum.find? (fun (p : Nat × Row) =>
    p.2.length ≥ 6 ∧
    (let rl := p.2.map (fun c => pyStrip (pyLower c))
     rl.contains "date".toList ∧ (rl.contains "reg".toList ∨ rl.contains "flt".toList)))

/-- `DataProcessor._parse_date_for_sort` (src/data_processor.py:583-592):
`(year, month, day)` with 2-digit years moved to 2000+, `(9999, 99, 99)` on
any parse failure. -/
def parse_date_for_sort (s : Str) : Int × Int × Int :=
  match pySplit '/' s with
  | p0 :: p1 :: p2 :: _ =>
    match pyInt p0, pyInt p1, pyInt p2 with
    | some d, some m, some y => (if y < 100 then y + 2000 else y, m, d)
    | _, _, _ => (9999, 99, 99)
  | _ => (9999, 99, 99)

/-- Strict lexicographic order on `Int` triples (Python tuple `<`). -/
def tripleLt (a b : Int × Int × Int) : Bool :=
  a.1 < b.1 ∨ (a.1 = b.1 ∧ (a.2.1 < b.2.1 ∨ (a.2.1 = b.2.1 ∧ a.2.2 < b.2.2)))

/-- Comparator used for `sorted(dates, key=self._parse_date_for_sort)`. -/
def dateSortLt (a b : Str) : Bool :=
  tripleLt (parse_date_for_sort a) (parse_date_for_sort b)

/-- The collections rebuilt from scratch by every run of `process_dayrep_csv`
(src/data_processor.py:412-428: each field is reassigned to a fresh empty
container before the row loop). -/
structure DayrepData where
  flights : List Flight
  flights_by_date : List (Str × List Flight)
  available_dates : List Str
  crew_to_regs : List (Str × List Str)
  crew_to_regs_by_date : List (Str × List (Str × List Str))
  crew_roles : List (Str × Str)
  reg_flight_hours : List (Str × ℚ)
  reg_flight_hours_by_date : List (Str × List (Str × ℚ))
  reg_flight_count : List (Str × Nat)
  reg_flight_count_by_date : List (Str × List (Str × Nat))
  crew_group_rotations : List (List Str × List Str)
  crew_group_rotations_by_date : List (Str × List (List Str × List Str))
deriving DecidableEq, Repr

def emptyDayrep : DayrepData :=
  ⟨[], [], [], [], [], [], [], [], [], [], [], []⟩

/-- `max(date, reg, flt, dep, arr, std, sta) + 1` (src/data_processor.py:478-479). -/
def minCols (cm : ColMap) : Nat :=
  (((((cm.date.max cm.reg).max cm.flt).max cm.dep).max cm.arr).max cm.std).max cm.sta + 1

/-- The body of the row loop of `process_dayrep_csv`
(src/data_processor.py:476-545), acting on the accumulated collections and
the set of operating dates seen so far. -/
def process_dayrep_row (cm : ColMap) (st : DayrepData × List Str) (row : Row) :
    DayrepData × List Str :=
  let (d, uniq) := st
  if row.length ≥ minCols cm ∧ row.getD cm.date [] ≠ [] then
    let date_str := pyStrip (row.getD cm.date [])
    if date_str.contains '/' ∧ date_str.any Char.isDigit then
      let reg := if cm.reg < row.length then pyStrip (row.getD cm.reg []) else []
      if reg = [] then (d, uniq)
      else
        let calendar_date := normalize_date date_str
        let std_time := if cm.std < row.length ∧ row.getD cm.std [] ≠ [] then pyStrip (row.getD cm.std []) else []
        let sta_time := if cm.sta < row.length ∧ row.getD cm.sta [] ≠ [] then pyStrip (row.getD cm.sta []) else []
        let operating_date := get_operating_date calendar_date std_time
        let uniq := addSet operating_date uniq
        let crew_string := if cm.has_crew ∧ cm.crew < row.length then row.getD cm.crew [] else []
        let flight : Flight :=
          { date := operating_date, calendar_date := calendar_date, reg := reg,
            ac_type := infer_ac_type reg,
            flt := if cm.flt < row.length then pyStrip (row.getD cm.flt []) else [],
            dep := if cm.dep < row.length then pyStrip (row.getD cm.dep []) else [],
            arr := if cm.arr < row.length then pyStrip (row.getD cm.arr []) else [],
            std := std_time, sta := sta_time, crew := crew_string }
        let d := { d with
          flights := d.flights ++ [flight],
          flights_by_date := updMap operating_date [] (· ++ [flight]) d.flights_by_date }
        let d :=
          match parse_time std_time, parse_time sta_time with
          | some s, some a =>
            let duration : Int := if a - s < 0 then a - s + 24 * 60 else a - s
            let hours : ℚ := (duration : ℚ) / 60
            { d with
              reg_flight_hours := updMap reg 0 (· + hours) d.reg_flight_hours,
              reg_flight_count := updMap reg 0 (· + 1) d.reg_flight_count,
              reg_flight_hours_by_date :=
                updMap operating_date [] (updMap reg 0 (· + hours)) d.reg_flight_hours_by_date,
              reg_flight_count_by_date :=
                updMap operating_date [] (updMap reg 0 (· + 1)) d.reg_flight_count_by_date }
          | _, _ => d
        if crew_string ≠ [] then
          let crew_list := extract_crew_ids crew_string
          let d := crew_list.foldl (fun d (rc : Str × Str) =>
            { d with
              crew_to_regs := updMap rc.2 [] (addSet reg) d.crew_to_regs,
              crew_to_regs_by_date :=
                updMap operating_date [] (updMap rc.2 [] (addSet reg)) d.crew_to_regs_by_date,
              crew_roles := updMap rc.2 [] (fun _ => rc.1) d.crew_roles }) d
          if crew_list ≠ [] then
            let key := get_crew_set_key crew_string
            if key ≠ [] then
              ({ d with
                 crew_group_rotations := updMap key [] (· ++ [reg]) d.crew_group_rotations,
                 crew_group_rotations_by_date :=
                   updMap operating_date [] (updMap key [] (· ++ [reg]))
                     d.crew_group_rotations_by_date }, uniq)
            else (d, uniq)
          else (d, uniq)
        else (d, uniq)
    else (d, uniq)
  else (d, uniq)

/-- `DataProcessor.process_dayrep_csv` on an in-memory list of CSV rows
(src/data_processor.py:412-581): header auto-detection, then the row loop;
`available_dates` is the chronologically sorted list of operating dates. -/
def process_dayrep (rows : List Row) : DayrepData :=
  let (cm, dataRows) :=
    match find_dayrep_header rows with
    | some (i, hrow) => (detect_csv_format hrow, rows.drop (i + 1))
    | none => (defaultColMap, rows)
  let (d, uniq) := dataRows.foldl (process_dayrep_row cm) (emptyDayrep, [])
  { d with available_dates := stSort dateSortLt uniq }

-- ===== Crew-duty (crew schedule) extractor, matrix layout =====

/-- Per-date duty counters (`crew_schedule_by_date` values; the four standard
keys are pre-seeded and `FGT`/`OFF` are added via `.get(duty, 0)`). -/
structure DutyCounts where
  sl : Nat
  csl : Nat
  sby : Nat
  osby : Nat
  fgt : Nat
  off : Nat
deriving DecidableEq, Repr

def zeroDuty : DutyCounts := ⟨0, 0, 0, 0, 0, 0⟩

/-- The global duty summary (`crew_schedule['summary']`,
src/data_processor.py:990). -/
structure ScheduleSummary where
  sl : Nat
  csl : Nat
  sby : Nat
  osby : Nat
  fgt : Nat
  off : Nat
  no_duty : Nat
deriving DecidableEq, Repr

def zeroSummary : ScheduleSummary := ⟨0, 0, 0, 0, 0, 0, 0⟩

/-- One `standby_records` entry (a `CrewDutyRecord`). -/
structure StandbyRec where
  crew_id : Str
  crew_name : Str
  base : Str
  ac_type : Str
  position : Str
  duty_type : Str
  duty_date : Str
  long_format : Bool
deriving DecidableEq, Repr

/-- Duty-cell vocabulary matching of the matrix layout
(src/data_processor.py:1177-1189): the value is already stripped and
uppercased; substring matches, `SBY` before `OSBY` removal logic and `CS`
before `SL`. -/
def classify_duty (val : Str) : Option Str :=
  if strIn "SBY".toList val ∧ ¬ strIn "OSBY".toList val then some "SBY".toList
  else if strIn "OSBY".toList val then some "OSBY".toList
  else if strIn "CS".toList val then some "CSL".toList
  else if strIn "SL".toList val then some "SL".toList
  else if strIn "FGT".toList val then some "FGT".toList
  else if strIn "OFF".toList val then some "OFF".toList
  else none

/-- Day-number columns of a matrix header row
(src/data_processor.py:1076-1087): each cell that is an integer in `[1, 31]`
is mapped to the synthesized date `f"{day:02d}/{month:02d}/{year[-2:]}"`.
`actual_year` is the source's `actual_year` (equal to the report year except
under the wall-clock-dependent 2025→2026 correction, which is outside this
embedding; every claim here uses 2026, where both agree). -/
def build_date_cols (hrow : Row) (report_month actual_year : Nat) : List (Nat × Str) :=
  hrow.enum.filterMap (fun (p : Nat × Str) =>
    let val := pyStrip p.2
    if val ≠ [] ∧ val.all Char.isDigit ∧ 1 ≤ digitsVal val ∧ digitsVal val ≤ 31 then
      some (p.1, fmt2 (digitsVal val) ++ '/' :: fmt2 report_month ++ '/' :: strLast2 (natToStr actual_year))
    else none)

/-- Python `s.split()` (whitespace runs, no empty fields). -/
def pySplitWs (s : Str) : List Str :=
  (s.foldr (fun c acc =>
    if pyIsSpace c then [] :: acc
    else
      match acc with
      | [] => [[c]]
      | g :: gs => (c :: g) :: gs) []).filter (· ≠ [])

/-- `parse_base_ac_pos` (src/data_processor.py:1142-1147): whitespace-split,
first token base, second aircraft type, third position. -/
def parse_base_ac_pos (val : Str) : Str × Str × Str :=
  let parts := pySplitWs (pyStrip val)
  (parts.getD 0 [], parts.getD 1 [], parts.getD 2 [])

/-- The crew-schedule collections rebuilt by `process_crew_schedule_csv`. -/
structure SchedState where
  by_date : List (Str × DutyCounts)
  summary : ScheduleSummary
  standby_records : List StandbyRec
deriving DecidableEq, Repr

def emptySched : SchedState := ⟨[], zeroSummary, []⟩

/-- `counts[duty] = counts.get(duty, 0) + 1` for the closed duty vocabulary. -/
def bumpDuty (duty : Str) (c : DutyCounts) : DutyCounts :=
  if duty = "SBY".toList then { c with sby := c.sby + 1 }
  else if duty = "OSBY".toList then { c with osby := c.osby + 1 }
  else if duty = "CSL".toList then { c with csl := c.csl + 1 }
  else if duty = "SL".toList then { c with sl := c.sl + 1 }
  else if duty = "FGT".toList then { c with fgt := c.fgt + 1 }
  else if duty = "OFF".toList then { c with off := c.off + 1 }
  else c

/-- `summary[duty] += 1` for the closed duty vocabulary. -/
def bumpSummary (duty : Str) (s : ScheduleSummary) : ScheduleSummary :=
  if duty = "SBY".toList then { s with sby := s.sby + 1 }
  else if duty = "OSBY".toList then { s with osby := s.osby + 1 }
  else if duty = "CSL".toList then { s with csl := s.csl + 1 }
  else if duty = "SL".toList then { s with sl := s.sl + 1 }
  else if duty = "FGT".toList then { s with fgt := s.fgt + 1 }
  else if duty = "OFF".toList then { s with off := s.off + 1 }
  else s

/-- The per-day-column body of the matrix row loop
(src/data_processor.py:1172-1206): a mapped column inside the row whose
stripped, uppercased value matches a duty token adds one to that date's
counters and the global summary and appends one standby record; the Boolean
tracks `row_has_duty`. -/
def matrix_cell_step (row : Row) (crew_id crew_name base ac_type position : Str)
    (p : SchedState × Bool) (dc : Nat × Str) : SchedState × Bool :=
  if dc.1 < row.length then
    let val := pyUpper (pyStrip (row.getD dc.1 []))
    if val = [] then p
    else
      match classify_duty val with
      | some duty =>
        ({ by_date := updMap dc.2 zeroDuty (bumpDuty duty) p.1.by_date,
           summary := bumpSummary duty p.1.summary,
           standby_records := p.1.standby_records ++
             [⟨crew_id, crew_name, base, ac_type, position, duty, dc.2, true⟩] }, true)
      | none => p
  else p

/-- One data row of the matrix layout (src/data_processor.py:1153-1212):
rows shorter than 2 cells and rows whose id cell does not start with a digit
are skipped; every mapped day column with a recognized duty token adds one to
the per-date counters and the global summary and appends one standby record;
a row with no recognized duty increments `NO_DUTY`. -/
def process_matrix_row (date_cols : List (Nat × Str)) (idIdx nameIdx baseIdx : Nat)
    (st : SchedState) (row : Row) : SchedState :=
  if row.length < 2 then st
  else if idIdx < row.length then
    let crew_id := pyStrip (row.getD idIdx [])
    if crew_id = [] ∨ ¬ (crew_id.headD ' ').isDigit then st
    else
      let crew_name := if nameIdx < row.length then pyStrip (row.getD nameIdx []) else []
      let bap := if baseIdx < row.length then pyStrip (row.getD baseIdx []) else []
      let base := (parse_base_ac_pos bap).1
      let ac_type := (parse_base_ac_pos bap).2.1
      let position := (parse_base_ac_pos bap).2.2
      let res := date_cols.foldl (matrix_cell_step row crew_id crew_name base ac_type position)
        (st, false)
      if res.2 then res.1
      else { res.1 with summary := { res.1.summary with no_duty := res.1.summary.no_duty + 1 } }
  else st

/-- The matrix-mode data-row loop of `process_crew_schedule_csv`. -/
def process_matrix (date_cols : List (Nat × Str)) (idIdx nameIdx baseIdx : Nat)
    (rows : List Row) : SchedState :=
  rows.foldl (process_matrix_row date_cols idIdx nameIdx baseIdx) emptySched

-- ===== Processor state =====

/-- Python `sort(key=lambda x: x['hours_28day'], reverse=True)`
(src/data_processor.py:905): stable descending sort. -/
def sort_rolling (l : List RollingRec) : List RollingRec :=
  stSort (fun a b => decide (b.hours_28day < a.hours_28day)) l

/-- The mutable collections of a `DataProcessor` instance that the embedded
operations read or replace. -/
structure ProcState where
  flights : List Flight
  flights_by_date : List (Str × List Flight)
  available_dates : List Str
  crew_to_regs : List (Str × List Str)
  crew_to_regs_by_date : List (Str × List (Str × List Str))
  crew_roles : List (Str × Str)
  reg_flight_hours : List (Str × ℚ)
  reg_flight_hours_by_date : List (Str × List (Str × ℚ))
  reg_flight_count : List (Str × Nat)
  reg_flight_count_by_date : List (Str × List (Str × Nat))
  crew_group_rotations : List (List Str × List Str)
  crew_group_rotations_by_date : List (Str × List (List Str × List Str))
  ac_utilization : List (Str × List (Str × Str))
  ac_utilization_by_date : List (Str × List (Str × List (Str × Str)))
  rolling_hours : List RollingRec
  crew_schedule_summary : ScheduleSummary
  crew_schedule_by_date : List (Str × DutyCounts)
  standby_records : List StandbyRec
  upload_date_context : Option (Str × Str × Str)

/-- `process_dayrep_csv` as a state transition: every flight-derived
collection is replaced wholesale by the result of parsing `rows`
(src/data_processor.py:412-430 reset them all before the loop), and
`upload_date_context` is refreshed when the parse produced any dates
(src/data_processor.py:551-557); nothing else is touched. -/
def process_dayrep_step (st : ProcState) (rows : List Row) : ProcState :=
  let d := process_dayrep rows
  { st with
    flights := d.flights,
    flights_by_date := d.flights_by_date,
    available_dates := d.available_dates,
    crew_to_regs := d.crew_to_regs,
    crew_to_regs_by_date := d.crew_to_regs_by_date,
    crew_roles := d.crew_roles,
    reg_flight_hours := d.reg_flight_hours,
    reg_flight_hours_by_date := d.reg_flight_hours_by_date,
    reg_flight_count := d.reg_flight_count,
    reg_flight_count_by_date := d.reg_flight_count_by_date,
    crew_group_rotations := d.crew_group_rotations,
    crew_group_rotations_by_date := d.crew_group_rotations_by_date,
    upload_date_context :=
      match d.available_dates with
      | [] => st.upload_date_context
      | x :: xs => some (x, (x :: xs).getLast (by simp), (x :: xs).getLast (by simp)) }

-- ===== Aggregation engine (calculate_metrics) =====

/-- `strStartsWith pre s` is Python `s.startswith(pre)`. -/
def strStartsWith : Str → Str → Bool
  | [], _ => true
  | _ :: _, [] => false
  | a :: as, b :: bs => b = a ∧ strStartsWith as bs

/-- One entry of the rotation list (src/data_processor.py:1424-1431).  The
live path (src/data_processor.py:1766-1769) emits entries keyed by rotation
code `id` instead of `crew_ids`; the respectively absent dict keys are
modelled by `none` / `[]`. -/
structure RotationDetail where
  crew_ids : List Str
  crew_count : Nat
  role : Str
  regs : List Str
  flights : List Str
  rotations : Nat
  id : Option Str := none
deriving DecidableEq, Repr

/-- `rotation_count` of `calculate_metrics` (src/data_processor.py:1401-1408):
one per crew-group whose registration list has at least two distinct entries. -/
def rotation_count_of (cgr : List (List Str × List Str)) : Nat :=
  (cgr.filter (fun e => 2 ≤ e.2.dedup.length)).length

/-- The loop body of the rotation-details loop
(src/data_processor.py:1404-1431): a group with ≥ 2 distinct registrations
and a non-empty key yields one entry whose `rotations` field is
`distinct − 1`, whose `role` is the role of the first crew id of the sorted
key, and whose flight list re-scans the active flights for the same
crew-group key; any other group yields nothing. -/
def rotation_detail_entry (crew_roles : List (Str × Str)) (flights : List Flight)
    (e : List Str × List Str) : Option RotationDetail :=
  if 2 ≤ e.2.dedup.length then
    match e.1 with
    | [] => none
    | first_crew :: _ =>
      some { crew_ids := e.1, crew_count := e.1.length,
             role := getMap first_crew "UNK".toList crew_roles,
             regs := stSort strLt e.2.dedup,
             flights := stSort strLt
               (((flights.filter (fun f => get_crew_set_key f.crew = e.1)).map Flight.flt).dedup),
             rotations := e.2.dedup.length - 1 }
  else none

/-- `rotation_details` of `calculate_metrics` (src/data_processor.py:1402-1431),
before the final sort. -/
def rotation_details_of (cgr : List (List Str × List Str))
    (crew_roles : List (Str × Str)) (flights : List Flight) : List RotationDetail :=
  cgr.filterMap (rotation_detail_entry crew_roles flights)

/-- Sort key `(-rotations, -crew_count)` (src/data_processor.py:1434). -/
def rotLt (a b : RotationDetail) : Bool :=
  b.rotations < a.rotations ∨ (a.rotations = b.rotations ∧ b.crew_count < a.crew_count)

/-- An `operating_crew` entry (src/data_processor.py:1465-1469). -/
structure OperCrew where
  id : Str
  role : Str
  name : Str
deriving DecidableEq, Repr

/-- Name lookup against the rolling-hours collection, first match wins,
`"Unknown"` when absent (src/data_processor.py:1458-1463). -/
def lookupRollingName (rolling : List RollingRec) (cid : Str) : Str :=
  match rolling.find? (fun rh => decide (rh.id = cid)) with
  | some rh => rh.name
  | none => "Unknown".toList

/-- Role counting and the operating-crew roster
(src/data_processor.py:1437-1469): first occurrence of each crew id wins. -/
def operating_crew_of (flights : List Flight) (rolling : List RollingRec) :
    List (Str × Nat) × List OperCrew :=
  let res := flights.foldl (fun (acc : List (Str × Nat) × List Str × List OperCrew) f =>
    (extract_crew_ids f.crew).foldl (fun acc (rc : Str × Str) =>
      if rc.2 ∈ acc.2.1 then acc
      else (updMap rc.1 0 (· + 1) acc.1, rc.2 :: acc.2.1,
            acc.2.2 ++ [⟨rc.2, rc.1, lookupRollingName rolling rc.2⟩])) acc)
    ([], [], [])
  (res.1, res.2.2)

def roleOrder (r : Str) : Nat :=
  if r = "CP".toList then 1 else if r = "FO".toList then 2
  else if r = "PU".toList then 3 else if r = "FA".toList then 4 else 99

/-- Sort key `(role_order.get(role, 99), name)` (src/data_processor.py:1472-1473). -/
def ocLt (a b : OperCrew) : Bool :=
  roleOrder a.role < roleOrder b.role ∨
  (roleOrder a.role = roleOrder b.role ∧ strLt a.name b.name)

/-- One `aircraft` entry (src/data_processor.py:1476-1485). -/
structure AircraftInfo where
  reg : Str
  total_hours : ℚ
  flights : Nat
  avg_per_flight : ℚ
deriving DecidableEq, Repr

/-- Tier tallies `rolling_stats` (src/data_processor.py:1488). -/
structure RollingStats where
  normal : Nat
  warning : Nat
  critical : Nat
deriving DecidableEq, Repr

/-- `rolling_stats[crew['status']] += 1` (src/data_processor.py:1490-1491).
A status outside the three keys raises `KeyError` in the source; the parser
only ever produces the three, and all theorems below assume that vocabulary,
where leaving the counters unchanged is indistinguishable. -/
def bumpStatus (status : Str) (c : RollingStats) : RollingStats :=
  if status = "normal".toList then { c with normal := c.normal + 1 }
  else if status = "warning".toList then { c with warning := c.warning + 1 }
  else if status = "critical".toList then { c with critical := c.critical + 1 }
  else c

def rolling_stats_of (l : List RollingRec) : RollingStats :=
  l.foldl (fun c r => bumpStatus r.status c) ⟨0, 0, 0⟩

/-- `compliance_rate` (src/data_processor.py:1489-1495): normal + warning
over total, times 100; 0 for an empty collection. -/
def compliance_rate_of (l : List RollingRec) : ℚ :=
  if l = [] then 0
  else
    let stats := rolling_stats_of l
    ((stats.normal : ℚ) + stats.warning) / l.length * 100

/-- The aircraft-type heuristic of the utilization fallback
(src/data_processor.py:1328-1336) — note it differs from `_infer_ac_type`. -/
def util_ac_type (reg : Str) : Str :=
  if strIn "A321".toList reg ∨ strStartsWith "A6".toList reg then "321".toList
  else if strIn "A330".toList reg then "330".toList
  else if strIn "A320".toList reg then "320".toList
  else "320".toList

/-- Utilization derived from flight hours when no utilization report exists
(src/data_processor.py:1326-1349). -/
def util_fallback (reg_flight_hours : List (Str × ℚ)) (reg_flight_count : List (Str × Nat)) :
    List (Str × List (Str × Str)) :=
  let stats := reg_flight_hours.foldl (fun acc (p : Str × ℚ) =>
    updMap (util_ac_type p.1) ((0 : ℚ), (0 : Nat))
      (fun q => (q.1 + p.2, q.2 + getMap p.1 0 reg_flight_count)) acc) []
  stats.map (fun (p : Str × (ℚ × Nat)) =>
    let total_minutes := (p.2.1 * 60).floor.toNat
    let hours_str := fmt2 (total_minutes / 60) ++ ':' :: fmt2 (total_minutes % 60)
    (p.1, [( "total_block".toList, hours_str),
           ( "total_cycles".toList, natToStr p.2.2),
           ( "dom_block".toList, hours_str),
           ( "int_block".toList, "00:00".toList),
           ( "avg_util".toList, "-".toList)]))

/-- The local `parse_date` of the available-dates merge
(src/data_processor.py:1504-1509): `(year, month, day)` with no century
adjustment, `(0, 0, 0)` on failure. -/
def parse_date_metrics (d : Str) : Int × Int × Int :=
  match pySplit '/' d with
  | p0 :: p1 :: p2 :: _ =>
    match pyInt p0, pyInt p1, pyInt p2 with
    | some dd, some m, some y => (y, m, dd)
    | _, _, _ => (0, 0, 0)
  | _ => (0, 0, 0)

def tripleLe (a b : Int × Int × Int) : Bool := ¬ tripleLt b a

/-- `datetime.strptime(s, "%d/%m/%y")`: 1-2 digit day and month, 2-digit
year (`00-68 → 2000s`, `69-99 → 1900s`), validated as a real calendar date. -/
def strptime_dmy (s : Str) : Option CalDate :=
  match pySplit '/' s with
  | [p0, p1, p2] =>
    if p0 ≠ [] ∧ p0.length ≤ 2 ∧ p0.all Char.isDigit ∧
       p1 ≠ [] ∧ p1.length ≤ 2 ∧ p1.all Char.isDigit ∧
       p2 ≠ [] ∧ p2.length ≤ 2 ∧ p2.all Char.isDigit then
      let day := digitsVal p0
      let month := digitsVal p1
      let y2 := digitsVal p2
      let year := if y2 ≤ 68 then 2000 + y2 else 1900 + y2
      if validDate ⟨year, month, day⟩ then some ⟨year, month, day⟩ else none
    else none
  | _ => none

/-- `prev_dt.strftime("%d/%m/%y")`. -/
def strftime_dmy (d : CalDate) : Str :=
  fmt2 d.day ++ '/' :: fmt2 d.month ++ '/' :: fmt2 (d.year % 100)

/-- The complete Metrics Snapshot (`data` dict of `calculate_metrics`,
src/data_processor.py:1550-1602, plus the keys the live override may add —
absent dict keys are modelled as `none`/`false`). -/
structure Dashboard where
  total_aircraft : Nat
  total_flights : Nat
  flight_trend : ℚ
  flight_trend_direction : Str
  total_crew : Nat
  crew_rotation_count : Nat
  avg_flight_hours : ℚ
  total_block_hours : ℚ
  available_dates : List Str
  current_filter_date : Option Str
  compliance_rate : ℚ
  crew_roles : List (Str × Nat)
  operating_crew : List OperCrew
  aircraft : List AircraftInfo
  crew_rotations : List RotationDetail
  utilization : List (Str × List (Str × Str))
  rolling_hours : List RollingRec
  rolling_stats : RollingStats
  crew_schedule_summary : ScheduleSummary
  standby_records : List StandbyRec
  crew_status_source : Option Str
  data_source_crew : Option Str
  is_aims_source : Bool

/-- `DataProcessor.calculate_metrics` (src/data_processor.py:1288-1604). -/
def calculate_metrics (st : ProcState) (filter_date : Option Str)
    (date_context : Option (Str × Str)) : Dashboard :=
  -- active view selection (src/data_processor.py:1291-1311)
  let sel :
      List Flight × List (Str × List Str) × List (Str × ℚ) × List (Str × Nat) ×
        List (List Str × List Str) :=
    match filter_date with
    | some fd =>
      if memMap fd st.flights_by_date then
        (getMap fd [] st.flights_by_date, getMap fd [] st.crew_to_regs_by_date,
         getMap fd [] st.reg_flight_hours_by_date, getMap fd [] st.reg_flight_count_by_date,
         getMap fd [] st.crew_group_rotations_by_date)
      else ([], [], [], [], [])
    | none =>
      (st.flights, st.crew_to_regs, st.reg_flight_hours, st.reg_flight_count,
       st.crew_group_rotations)
  let flights := sel.1
  let crew_to_regs := sel.2.1
  let reg_flight_hours := sel.2.2.1
  let reg_flight_count := sel.2.2.2.1
  let crew_group_rotations := sel.2.2.2.2
  -- utilization (src/data_processor.py:1315-1349)
  let utilization_data :=
    match filter_date with
    | some fd =>
      if memMap fd st.ac_utilization_by_date then getMap fd [] st.ac_utilization_by_date
      else if st.ac_utilization ≠ [] then st.ac_utilization
      else util_fallback reg_flight_hours reg_flight_count
    | none =>
      if st.ac_utilization ≠ [] then st.ac_utilization
      else util_fallback reg_flight_hours reg_flight_count
  let total_flights := flights.length
  let total_crew := crew_to_regs.length
  let avg_flight_hours : ℚ :=
    if reg_flight_hours = [] then 0
    else (reg_flight_hours.map Prod.snd).sum / reg_flight_hours.length
  -- rotations (src/data_processor.py:1398-1434)
  let rotation_count := rotation_count_of crew_group_rotations
  let rotation_details :=
    stSort rotLt (rotation_details_of crew_group_rotations st.crew_roles flights)
  -- role counts and operating crew (src/data_processor.py:1436-1473)
  let oc := operating_crew_of flights st.rolling_hours
  let operating_crew := stSort ocLt oc.2
  -- aircraft details (src/data_processor.py:1475-1485)
  let aircraft_data := (stSort strLt (reg_flight_hours.map Prod.fst)).map (fun reg =>
    let hours := getMap reg 0 reg_flight_hours
    let count := getMap reg 0 reg_flight_count
    { reg := reg, total_hours := pyRound 1 hours, flights := count,
      avg_per_flight := if count > 0 then pyRound 1 (hours / count) else 0 : AircraftInfo })
  -- rolling statistics (src/data_processor.py:1487-1495)
  let rolling_stats := rolling_stats_of st.rolling_hours
  let compliance_rate := compliance_rate_of st.rolling_hours
  let total_block_hours : ℚ := (reg_flight_hours.map Prod.snd).sum
  -- merged available dates (src/data_processor.py:1500-1527)
  let standby_dates :=
    (st.standby_records.filterMap (fun r => if r.duty_date ≠ [] then some r.duty_date else none)).dedup
  let all_dates := (st.available_dates ++ (standby_dates.filter (· ∉ st.available_dates))).dedup
  let all_dates :=
    match date_context with
    | some (min_date, max_date) =>
      all_dates.filter (fun d =>
        tripleLe (parse_date_metrics min_date) (parse_date_metrics d) ∧
        tripleLe (parse_date_metrics d) (parse_date_metrics max_date))
    | none => all_dates
  let merged_available_dates :=
    stSort (fun a b => tripleLt (parse_date_metrics a) (parse_date_metrics b)) all_dates
  -- flight trend (src/data_processor.py:1529-1548)
  let trend : ℚ × Str :=
    match filter_date with
    | some fd =>
      match strptime_dmy fd with
      | some dt =>
        let prev_date_str := strftime_dmy (predDate dt)
        if memMap prev_date_str st.flights_by_date then
          let prev_count := (getMap prev_date_str [] st.flights_by_date).length
          if prev_count > 0 then
            let t : ℚ := ((total_flights : ℚ) - prev_count) / prev_count * 100
            (t, if t > 0 then "up".toList else if t < 0 then "down".toList else "neutral".toList)
          else (0, "neutral".toList)
        else (0, "neutral".toList)
      | none => (0, "neutral".toList)
    | none => (0, "neutral".toList)
  -- duty-summary override for a filtered date (src/data_processor.py:1583-1598)
  let filtered_standby :=
    match filter_date with
    | some fd => st.standby_records.filter (fun r => decide (r.duty_date = fd))
    | none => st.standby_records
  let sched_summary :=
    match filter_date with
    | some _ =>
      filtered_standby.foldl (fun s r => bumpSummary r.duty_type s) zeroSummary
    | none => st.crew_schedule_summary
  { total_aircraft := (flights.filterMap (fun f => if f.reg ≠ [] then some f.reg else none)).dedup.length,
    total_flights := total_flights,
    flight_trend := trend.1,
    flight_trend_direction := trend.2,
    total_crew := total_crew,
    crew_rotation_count := rotation_count,
    avg_flight_hours := pyRound 1 avg_flight_hours,
    total_block_hours := pyRound 1 total_block_hours,
    available_dates := merged_available_dates,
    current_filter_date := filter_date,
    compliance_rate := compliance_rate,
    crew_roles := oc.1,
    operating_crew := operating_crew,
    aircraft := aircraft_data,
    crew_rotations := rotation_details.take 20,
    utilization := utilization_data,
    rolling_hours := st.rolling_hours.take 50,
    rolling_stats := rolling_stats,
    crew_schedule_summary := sched_summary,
    standby_records := filtered_standby,
    crew_status_source := none,
    data_source_crew := none,
    is_aims_source := false }

-- ===== Live-source reconciliation (_apply_live_crew_override) =====

/-- Python `str.replace(pat, rep)` (all non-overlapping occurrences,
left-to-right), via fuel for structural recursion. -/
def pyReplaceAux (pat rep : Str) : Nat → Str → Str
  | 0, s => s
  | _ + 1, [] => []
  | f + 1, c :: cs =>
    if pat ≠ [] ∧ strStartsWith pat (c :: cs) then
      rep ++ pyReplaceAux pat rep f ((c :: cs).drop pat.length)
    else c :: pyReplaceAux pat rep f cs

def pyReplace (s pat rep : Str) : Str := pyReplaceAux pat rep s.length s

/-- The duty-status tallies returned by
`client.get_bulk_crew_status` (read with `.get(key, 0)`,
src/data_processor.py:1684-1692). -/
structure BulkStatusRes where
  success : Bool
  sby : Nat
  osby : Nat
  sl : Nat
  csl : Nat
  fgt : Nat
  off : Nat
  sampled_crew : Nat
  total_crew : Nat
deriving DecidableEq, Repr

/-- One crew member of a live leg (dict fields read with `.get`; an absent
or `None` id/rotation is the empty string, which Python treats as falsy). -/
structure LegCrew where
  id : Str
  name : Str
  role : Str
  rotation : Str
deriving DecidableEq, Repr

structure LiveLeg where
  flight_no : Str
  reg : Str
  crew : List LegCrew
deriving DecidableEq, Repr

/-- Result of `client.fetch_leg_members_per_day`. -/
structure LegRes where
  success : Bool
  total_crew_operating : Nat
  legs : List LiveLeg
deriving DecidableEq, Repr

/-- The external AIMS collaborator as seen by one call of
`_apply_live_crew_override`: whether the import succeeds, whether
`is_aims_available()` holds, today's date string (used when no filter date is
given), and the outcome of each fetch — `Except.error` models the call
raising an exception (caught by the handler at
src/data_processor.py:1778-1781). -/
structure AimsOracle where
  importOk : Bool
  available : Bool
  today : Str
  bulk : Except Unit BulkStatusRes
  legsRes : Except Unit LegRes

/-- Auxiliary of the live rotation block: collapse consecutive equal
registrations (src/data_processor.py:1752-1754). -/
def collapseRegs (legs : List (Str × Str × List Str)) : List Str :=
  legs.foldl (fun regs l =>
    if l.2.1 ≠ [] ∧ (regs = [] ∨ l.2.1 ≠ regs.getLastD []) then regs ++ [l.2.1] else regs) []

/-- Lead-role search (src/data_processor.py:1757-1764): scan the first leg's
crew ids against the live operating-crew list; a captain wins outright, a
first officer wins over cabin roles. -/
def leadRole (main_crew : List Str) (oc : List OperCrew) : Str :=
  main_crew.foldl (fun lr cid =>
    if lr = "CP".toList then lr
    else
      match oc.find? (fun o => decide (o.id = cid)) with
      | some o =>
        if o.role = "CP".toList then "CP".toList
        else if o.role = "FO".toList then "FO".toList
        else lr
      | none => lr) "FA".toList

/-- The fetch-and-overlay phase of `_apply_live_crew_override`
(src/data_processor.py:1679-1777), reached once the AIMS import and
availability checks passed and the target date parsed: each fetch may raise
(`Except.error`, caught by the surrounding `except Exception`, which then
returns `data` exactly as mutated so far) or report `success: False`
(skipping its block). -/
def live_fetch_phase (o : AimsOracle) (data : Dashboard) (target : CalDate)
    (current_flights : List Flight) : Dashboard :=
  match o.bulk with
          | Except.error _ => data
          | Except.ok status_res =>
            let data :=
              if status_res.success then
                { data with
                  crew_schedule_summary :=
                    { sl := status_res.sl, csl := status_res.csl, sby := status_res.sby,
                      osby := status_res.osby, fgt := status_res.fgt, off := status_res.off,
                      no_duty := 0 },
                  crew_status_source := some
                    ( "AIMS Live (Bulk - ".toList ++ natToStr status_res.sampled_crew ++
                      '/' :: natToStr status_res.total_crew ++ ")".toList ) }
              else data
            match o.legsRes with
            | Except.error _ => data
            | Except.ok live_data =>
              if ¬ live_data.success then data
              else
                let data := { data with
                  total_crew := live_data.total_crew_operating,
                  data_source_crew := some "AIMS Live".toList }
                -- live operating crew and role counts (src/data_processor.py:1705-1722)
                let oc := live_data.legs.foldl
                  (fun (acc : List (Str × Nat) × List Str × List OperCrew) leg =>
                    leg.crew.foldl (fun acc c =>
                      if c.id ≠ [] ∧ c.id ∉ acc.2.1 then
                        (if memMap c.role acc.1 then updMap c.role 0 (· + 1) acc.1
                         else updMap "FA".toList 0 (· + 1) acc.1,
                         c.id :: acc.2.1,
                         acc.2.2 ++ [⟨c.id, c.role, c.name⟩]) -- OperCrew: id, role, name
                      else acc) acc)
                  ([( "CP".toList, 0), ( "FO".toList, 0), ( "PU".toList, 0), ( "FA".toList, 0)], [], [])
                let new_operating_crew := oc.2.2
                let data :=
                  if new_operating_crew ≠ [] then
                    { data with operating_crew := new_operating_crew, crew_roles := oc.1 }
                  else data
                -- flight number → registration map (src/data_processor.py:1725-1737)
                let full_d := fmt2 target.day ++ '/' :: fmt2 target.month ++ '/' :: natToStr target.year
                let short_d := strftime_dmy target
                let flight_reg_map := current_flights.foldl (fun m f =>
                  let f_date := f.date
                  if f_date = full_d ∨ f_date = short_d ∨
                     pyReplace f_date "/0".toList "/".toList =
                       pyReplace full_d "/0".toList "/".toList then
                    let f_no := f.flt
                    let reg := f.reg
                    if f_no ≠ [] ∧ reg ≠ [] then
                      let m := updMap f_no [] (fun _ => reg) m
                      if strStartsWith "VJ".toList f_no then
                        updMap (f_no.drop 2) [] (fun _ => reg) m
                      else if f_no ≠ [] ∧ f_no.all Char.isDigit then
                        updMap ( "VJ".toList ++ f_no) [] (fun _ => reg) m
                      else m
                    else m
                  else m) []
                -- group legs by rotation code (src/data_processor.py:1739-1748)
                let crte_groups := live_data.legs.foldl
                  (fun (g : List (Str × List (Str × Str × List Str))) leg =>
                    let f_no := leg.flight_no
                    let reg :=
                      match flight_reg_map.find? (fun p => decide (p.1 = f_no)) with
                      | some p => p.2
                      | none => leg.reg
                    let crte := ((leg.crew.map LegCrew.rotation).filter (· ≠ [])).headD []
                    let crew_ids := stSort strLt ((leg.crew.map LegCrew.id).filter (· ≠ []))
                    if crte ≠ [] then updMap crte [] (· ++ [(f_no, reg, crew_ids)]) g
                    else g) []
                -- live rotation details (src/data_processor.py:1750-1777)
                let new_rotation_details := crte_groups.foldl
                  (fun acc (p : Str × List (Str × Str × List Str)) =>
                    let regs := collapseRegs p.2
                    if regs.length > 1 then
                      let main_crew := (p.2.headD ([], [], [])).2.2
                      acc ++ [{ crew_ids := [], crew_count := main_crew.length,
                                role := leadRole main_crew new_operating_crew,
                                regs := regs, flights := p.2.map (fun l => l.1),
                                rotations := regs.length - 1,
                                id := some p.1 : RotationDetail }]
                    else acc) []
                if new_rotation_details ≠ [] then
                  { data with
                    crew_rotations := (stSort rotLt new_rotation_details).take 100,
                    crew_rotation_count := new_rotation_details.length }
                else
                  { data with crew_rotations := [], crew_rotation_count := 0 }

/-- `DataProcessor._apply_live_crew_override` (src/data_processor.py:1662-1782).
An import failure is swallowed (`except ImportError: pass`); an unavailable
AIMS client or an unparseable/invalid target date leaves the snapshot
untouched; otherwise the fetch phase runs. -/
def apply_live_crew_override (o : AimsOracle) (data : Dashboard)
    (filter_date : Option Str) (current_flights : List Flight) : Dashboard :=
  if ¬ o.importOk then data
  else if ¬ o.available then data
  else
    let target_date_str := filter_date.getD o.today
    match pySplit '/' target_date_str with
    | [day_s, month_s, year_s] =>
      match pyInt day_s, pyInt month_s, pyInt year_s with
      | some di, some mi, some yi =>
        let yr : Int := if yi < 100 then yi + 2000 else yi
        if ¬ (1 ≤ di ∧ 1 ≤ mi ∧ 1 ≤ yr ∧ yr ≤ 9999 ∧
              validDate ⟨yr.toNat, mi.toNat, di.toNat⟩) then data
        else
          live_fetch_phase o data ⟨yr.toNat, mi.toNat, di.toNat⟩ current_flights
      | _, _, _ => data
    | _ => data

-- ===== Shared helpers for the claim theorems =====

def emptyProcState : ProcState :=
  { flights := [], flights_by_date := [], available_dates := [],
    crew_to_regs := [], crew_to_regs_by_date := [], crew_roles := [],
    reg_flight_hours := [], reg_flight_hours_by_date := [],
    reg_flight_count := [], reg_flight_count_by_date := [],
    crew_group_rotations := [], crew_group_rotations_by_date := [],
    ac_utilization := [], ac_utilization_by_date := [],
    rolling_hours := [], crew_schedule_summary := zeroSummary,
    crew_schedule_by_date := [], standby_records := [],
    upload_date_context := none }

theorem rolling_stats_of_spec (l : List RollingRec) :
    (rolling_stats_of l).normal = l.countP (fun r => decide (r.status = "normal".toList)) ∧
    (rolling_stats_of l).warning = l.countP (fun r => decide (r.status = "warning".toList)) ∧
    (rolling_stats_of l).critical = l.countP (fun r => decide (r.status = "critical".toList)) := by
  suffices h : ∀ c : RollingStats,
      (l.foldl (fun c r => bumpStatus r.status c) c).normal
        = c.normal + l.countP (fun r => decide (r.status = "normal".toList)) ∧
      (l.foldl (fun c r => bumpStatus r.status c) c).warning
        = c.warning + l.countP (fun r => decide (r.status = "warning".toList)) ∧
      (l.foldl (fun c r => bumpStatus r.status c) c).critical
        = c.critical + l.countP (fun r => decide (r.status = "critical".toList)) by
    have := h ⟨0, 0, 0⟩
    simpa [rolling_stats_of] using this
  induction l with
  | nil => intro c; simp
  | cons r rs ih =>
    intro c
    have hr := ih (bumpStatus r.status c)
    simp only [List.foldl_cons, List.countP_cons]
    refine ⟨?_, ?_, ?_⟩
    · rw [hr.1]
      unfold bumpStatus
      split_ifs <;> simp_all <;> omega
    · rw [hr.2.1]
      unfold bumpStatus
      split_ifs <;> simp_all <;> omega
    · rw [hr.2.2]
      unfold bumpStatus
      split_ifs <;> simp_all <;> omega

-- ===== C10 =====

/-- C10: for every filter date (and any date-context clipping), the
snapshot's rolling-hours section (`rolling_hours`, top 50), its tier
breakdown (`rolling_stats`) and its `compliance_rate` are computed from the
full rolling-hours collection and coincide with the unfiltered snapshot:
the date filter changes no field of the compliance section. -/
theorem c10_compliance_section_filter_independent (st : ProcState) (fd : Str)
    (dc : Option (Str × Str)) :
    (calculate_metrics st (some fd) dc).rolling_hours = st.rolling_hours.take 50 ∧
    (calculate_metrics st (some fd) dc).rolling_stats = rolling_stats_of st.rolling_hours ∧
    (calculate_metrics st (some fd) dc).compliance_rate = compliance_rate_of st.rolling_hours ∧
    (calculate_metrics st (some fd) dc).rolling_hours = (calculate_metrics st none dc).rolling_hours ∧
    (calculate_metrics st (some fd) dc).rolling_stats = (calculate_metrics st none dc).rolling_stats ∧
    (calculate_metrics st (some fd) dc).compliance_rate = (calculate_metrics st none dc).compliance_rate :=
  ⟨rfl, rfl, rfl, rfl, rfl, rfl⟩

-- ===== C4 =====

/-- C4: for every non-empty rolling-hours collection (statuses drawn from the
parser's three-tier vocabulary), the snapshot's `compliance_rate` equals
(count of normal + count of warning) / total × 100 — only `critical` counts
as non-compliant. -/
theorem c4_compliance_rate_formula (st : ProcState) (fd : Option Str)
    (dc : Option (Str × Str)) (hne : st.rolling_hours ≠ [])
    (hvoc : ∀ r ∈ st.rolling_hours,
      r.status = "normal".toList ∨ r.status = "warning".toList ∨ r.status = "critical".toList) :
    (calculate_metrics st fd dc).compliance_rate =
      ((st.rolling_hours.countP (fun r => decide (r.status = "normal".toList)) : ℚ) +
        st.rolling_hours.countP (fun r => decide (r.status = "warning".toList))) /
        st.rolling_hours.length * 100 := by
  have h1 : (calculate_metrics st fd dc).compliance_rate = compliance_rate_of st.rolling_hours := by
    cases fd <;> rfl
  rw [h1]
  unfold compliance_rate_of
  rw [if_neg hne]
  have h2 := rolling_stats_of_spec st.rolling_hours
  simp only [h2.1, h2.2.1]

/-- The `{60h, 90h, 97h}` rolling-hours example, built through the parser's
record constructor (so the tiers come from `rolcrtot_status`). -/
def rollingExample : List RollingRec :=
  [mkRollingRec "1".toList "A".toList "0".toList "60:00".toList "0:00".toList,
   mkRollingRec "2".toList "B".toList "0".toList "90:00".toList "0:00".toList,
   mkRollingRec "3".toList "C".toList "0".toList "97:00".toList "0:00".toList]

theorem parse_hours_60 : parse_hours "60:00".toList = 60 := by
  rw [parse_hours_eval "60:00".toList "60".toList "00".toList [] 60 0
    (by decide) (by decide) (by decide) (by decide)]
  norm_num

theorem parse_hours_90 : parse_hours "90:00".toList = 90 := by
  rw [parse_hours_eval "90:00".toList "90".toList "00".toList [] 90 0
    (by decide) (by decide) (by decide) (by decide)]
  norm_num

theorem parse_hours_97 : parse_hours "97:00".toList = 97 := by
  rw [parse_hours_eval "97:00".toList "97".toList "00".toList [] 97 0
    (by decide) (by decide) (by decide) (by decide)]
  norm_num

theorem rollingExample_statuses :
    (rollingExample.map RollingRec.status) =
      [ "normal".toList, "warning".toList, "critical".toList ] := by
  simp only [rollingExample, mkRollingRec, List.map]
  rw [parse_hours_60, parse_hours_90, parse_hours_97]
  norm_num [rolcrtot_status]

/-- C4 witness: the tiers of `{60, 90, 97}` are normal/warning/critical and
the compliance rate is `(1+1)/3 × 100 = 200/3` (displayed as 66.7). -/
theorem c4_witness :
    (calculate_metrics { emptyProcState with rolling_hours := rollingExample } none none).compliance_rate
      = 200 / 3 := by
  have hs := rollingExample_statuses
  simp only [rollingExample, List.map_cons, List.map_nil, List.cons.injEq, and_true] at hs
  have hne : ({ emptyProcState with rolling_hours := rollingExample } : ProcState).rolling_hours ≠ [] := by
    simp [rollingExample]
  have hvoc : ∀ r ∈ ({ emptyProcState with rolling_hours := rollingExample } : ProcState).rolling_hours,
      r.status = "normal".toList ∨ r.status = "warning".toList ∨ r.status = "critical".toList := by
    intro r hr
    simp only [rollingExample, List.mem_cons, List.not_mem_nil, or_false] at hr
    rcases hr with rfl | rfl | rfl
    · exact Or.inl hs.1
    · exact Or.inr (Or.inl hs.2.1)
    · exact Or.inr (Or.inr hs.2.2)
  have h := c4_compliance_rate_formula
    { emptyProcState with rolling_hours := rollingExample } none none hne hvoc
  rw [h]
  simp only [rollingExample, List.countP_cons, List.countP_nil, List.length_cons,
    List.length_nil, hs.1, hs.2.1, hs.2.2]
  rw [if_neg (by decide)]
  norm_num

-- ===== C1 =====

/-- C1 counterexample: the claim asserts the identical classification in the
report-parse path and elsewhere, with tier(85.0) = normal and
tier(95.0) = warning; but the rolling-hours parser classifies 85.0 as
`warning` and 95.0 as `critical` (inclusive thresholds), while
`get_alert_status` gives `normal` / `warning` there. -/
theorem c1_counterexample :
    rolcrtot_status 85 = "warning".toList ∧ get_alert_status 85 = "normal".toList ∧
    rolcrtot_status 95 = "critical".toList ∧ get_alert_status 95 = "warning".toList := by
  refine ⟨?_, ?_, ?_, ?_⟩ <;> norm_num [rolcrtot_status, get_alert_status]

/-- C1 amended: `get_alert_status` and the live/AIMS classification are
identical and behave as the claim's boundaries say (critical iff > 95,
warning iff 85 < h ≤ 95, normal iff h ≤ 85, so 85.0 ↦ normal, 95.0 ↦
warning); the rolling-hours parse path agrees with them everywhere except at
exactly 85 and 95, where its inclusive thresholds give `warning` and
`critical`. -/
theorem c1_alert_tiers (h : ℚ) :
    get_alert_status h = aims_alert_status h ∧
    (get_alert_status h = "critical".toList ↔ h > 95) ∧
    (get_alert_status h = "warning".toList ↔ 85 < h ∧ h ≤ 95) ∧
    (get_alert_status h = "normal".toList ↔ h ≤ 85) ∧
    (h ≠ 85 → h ≠ 95 → rolcrtot_status h = get_alert_status h) ∧
    rolcrtot_status 85 = "warning".toList ∧
    rolcrtot_status 95 = "critical".toList := by
  have hperc : h / 100 * 100 = h := div_mul_cancel₀ h (by norm_num)
  have e : rolcrtot_status h =
      if h ≥ 95 then "critical".toList
      else if h ≥ 85 then "warning".toList else "normal".toList := by
    simp only [rolcrtot_status]
    rw [hperc]
  refine ⟨rfl, ?_, ?_, ?_, ?_, ?_, ?_⟩
  · unfold get_alert_status
    split_ifs with h1 h2
    · simpa using h1
    · exact ⟨fun hx => absurd hx (by decide), fun hx => absurd hx h1⟩
    · exact ⟨fun hx => absurd hx (by decide), fun hx => absurd hx h1⟩
  · unfold get_alert_status
    split_ifs with h1 h2
    · exact ⟨fun hx => absurd hx (by decide), fun hx => absurd h1 (by push_neg; exact hx.2)⟩
    · exact ⟨fun _ => ⟨h2, by linarith [not_lt.mp h1]⟩, fun _ => rfl⟩
    · exact ⟨fun hx => absurd hx (by decide), fun hx => absurd hx.1 h2⟩
  · unfold get_alert_status
    split_ifs with h1 h2
    · exact ⟨fun hx => absurd hx (by decide), fun hx => absurd h1 (by linarith)⟩
    · exact ⟨fun hx => absurd hx (by decide), fun hx => absurd h2 (by linarith)⟩
    · exact ⟨fun _ => not_lt.mp h2, fun _ => rfl⟩
  · intro h85 h95
    rw [e]
    unfold get_alert_status
    have n95 : ¬ h ≥ 95 ↔ ¬ h > 95 := by
      constructor
      · intro hx hy; exact hx (le_of_lt hy)
      · intro hx hy; exact hx (lt_of_le_of_ne hy (by simpa [eq_comm] using h95))
    by_cases h1 : h > 95
    · rw [if_pos (le_of_lt h1), if_pos h1]
    · rw [if_neg (n95.mpr h1), if_neg h1]
      by_cases h2 : h > 85
      · rw [if_pos (le_of_lt h2), if_pos h2]
      · have : ¬ h ≥ 85 := fun hy =>
          h2 (lt_of_le_of_ne hy (by simpa [eq_comm] using h85))
        rw [if_neg this, if_neg h2]
  · norm_num [rolcrtot_status]
  · norm_num [rolcrtot_status]

/-- C1 witness: the amended theorem applied at 90 (both paths agree:
`warning`) and its boundary conjuncts at 85/95 discharged concretely. -/
theorem c1_witness :
    rolcrtot_status 90 = get_alert_status 90 ∧ get_alert_status 90 = "warning".toList := by
  have h := c1_alert_tiers 90
  refine ⟨h.2.2.2.2.1 (by norm_num) (by norm_num), ?_⟩
  exact h.2.2.1.mpr ⟨by norm_num, by norm_num⟩

-- ===== C5 =====

/-- C5: for parseable departure/arrival times the block minutes are
`arrival − departure` plus 1440 exactly when that difference is negative —
i.e. the representative of `arrival − departure` modulo 1440 in `[0, 1440)`
for in-range times — and the credit is 0 when either input is unparseable. -/
theorem c5_block_minutes (std_s sta_s : Str) :
    (∀ s a : Int, parse_time std_s = some s → parse_time sta_s = some a →
       0 ≤ s → s < 1440 → 0 ≤ a → a < 1440 →
       block_minutes std_s sta_s = (a - s) % 1440 ∧
       0 ≤ block_minutes std_s sta_s ∧ block_minutes std_s sta_s < 1440) ∧
    ((parse_time std_s = none ∨ parse_time sta_s = none) → block_minutes std_s sta_s = 0) := by
  constructor
  · intro s a hs ha h0s h1s h0a h1a
    have e : block_minutes std_s sta_s = if a - s < 0 then a - s + 1440 else a - s := by
      unfold block_minutes
      rw [hs, ha]
    rw [e]
    split_ifs with hneg
    · exact ⟨by omega, by omega, by omega⟩
    · exact ⟨by omega, by omega, by omega⟩
  · intro hor
    rcases hor with h | h
    · cases hx : parse_time sta_s <;> simp [block_minutes, h, hx]
    · cases hx : parse_time std_s <;> simp [block_minutes, h, hx]

/-- C5 witness: the three documented evaluations, via the theorem. -/
theorem c5_witness :
    block_minutes "23:50".toList "00:10".toList = 20 ∧
    block_minutes "10:00".toList "11:30".toList = 90 ∧
    block_minutes "".toList "10:00".toList = 0 := by
  refine ⟨?_, ?_, ?_⟩
  · have h := (c5_block_minutes "23:50".toList "00:10".toList).1 1430 10
      (by decide) (by decide) (by decide) (by decide) (by decide) (by decide)
    rw [h.1]; decide
  · have h := (c5_block_minutes "10:00".toList "11:30".toList).1 600 690
      (by decide) (by decide) (by decide) (by decide) (by decide) (by decide)
    rw [h.1]; decide
  · exact (c5_block_minutes "".toList "10:00".toList).2 (Or.inl (by decide))

-- ===== C8 =====

theorem pySplit_no_sep (sep : Char) (a : Str) (h : sep ∉ a) : pySplit sep a = [a] := by
  induction a with
  | nil => rfl
  | cons c cs ih =>
    have hc : c ≠ sep := fun e => h (e ▸ List.mem_cons_self c cs)
    have hcs : sep ∉ cs := fun e => h (List.mem_cons_of_mem c e)
    simp only [pySplit, if_neg hc, ih hcs]

theorem pySplit_append (sep : Char) (a r : Str) (h : sep ∉ a) :
    pySplit sep (a ++ sep :: r) = a :: pySplit sep r := by
  induction a with
  | nil => simp [pySplit]
  | cons c cs ih =>
    have hc : c ≠ sep := fun e => h (e ▸ List.mem_cons_self c cs)
    have hcs : sep ∉ cs := fun e => h (List.mem_cons_of_mem c e)
    show pySplit sep (c :: (cs ++ sep :: r)) = (c :: cs) :: pySplit sep r
    simp only [pySplit, if_neg hc]
    rw [ih hcs]

theorem strContains_iff (s : Str) (c : Char) : s.contains c = true ↔ c ∈ s := by
  induction s with
  | nil => simp [List.contains]
  | cons b bs ih => simp_all [List.contains, List.elem_cons]

theorem dropWhile_eq_self_of (p : Char → Bool) (s : Str)
    (h : ∀ c ∈ s, p c = false) : s.dropWhile p = s := by
  cases s with
  | nil => rfl
  | cons c cs => simp [List.dropWhile_cons, h c (List.mem_cons_self c cs)]

theorem pyStrip_eq_self (s : Str) (h : ∀ c ∈ s, pyIsSpace c = false) : pyStrip s = s := by
  unfold pyStrip
  rw [dropWhile_eq_self_of _ _ h,
    dropWhile_eq_self_of _ _ (fun c hc => h c (by simpa using hc)), List.reverse_reverse]

/-- Facts about the two-digit formatter used to build canonical time/date
strings, checked over the whole domain. -/
theorem fmt2_facts : ∀ n : Fin 100,
    (fmt2 n.val).length = 2 ∧ (fmt2 n.val).all Char.isDigit = true ∧
    pyInt (fmt2 n.val) = some (n.val : Int) ∧ digitsVal (fmt2 n.val) = n.val ∧
    '/' ∉ fmt2 n.val ∧ ':' ∉ fmt2 n.val ∧ (∀ c ∈ fmt2 n.val, pyIsSpace c = false) := by
  decide

theorem digit_not_space (c : Char) (h : c.isDigit = true) : pyIsSpace c = false := by
  by_contra hx
  have hx' : pyIsSpace c = true := by simpa using hx
  unfold pyIsSpace at hx'
  simp only [decide_eq_true_eq] at hx'
  rcases hx' with rfl | rfl | rfl | rfl | rfl | rfl <;> exact absurd h (by decide)

/-- C8 counterexample: the claim (both temporal parsers accept the 4-digit
`HHMM` form) fails for `DataProcessor.parse_time`, which returns `None` on
`"1030"`, while `parse_time_to_minutes` returns 630. -/
theorem c8_counterexample :
    parse_time "1030".toList = none ∧ parse_time_to_minutes "1030".toList = some 630 := by
  decide

/-- C8 amended: `parse_time_to_minutes` accepts both the `"HH:MM"` colon form
and the 4-digit `"HHMM"` form, producing minutes since midnight, while
`parse_time` accepts the colon form only and returns `None` on every string
without a colon (in particular on `"HHMM"`).  Both are total functions
(never raise). -/
theorem c8_time_parsers :
    (∀ h m : Nat, h < 100 → m < 100 →
       parse_time_to_minutes (fmt2 h ++ ':' :: fmt2 m) = some ((h : Int) * 60 + m) ∧
       parse_time_to_minutes (fmt2 h ++ fmt2 m) = some ((h : Int) * 60 + m) ∧
       parse_time (fmt2 h ++ ':' :: fmt2 m) = some ((h : Int) * 60 + m)) ∧
    (∀ s : Str, s.contains ':' = false → parse_time s = none) := by
  constructor
  · intro h m hh hm
    obtain ⟨Fh1, Fh2, Fh3, Fh4, Fh5, Fh6, Fh7⟩ := fmt2_facts ⟨h, hh⟩
    obtain ⟨Fm1, Fm2, Fm3, Fm4, Fm5, Fm6, Fm7⟩ := fmt2_facts ⟨m, hm⟩
    have hne : fmt2 h ++ ':' :: fmt2 m ≠ [] := by
      intro e
      have := congrArg List.length e
      simp [Fh1] at this
    have hmem : (fmt2 h ++ ':' :: fmt2 m).contains ':' = true :=
      (strContains_iff _ _).mpr (by simp)
    have hsplit : pySplit ':' (fmt2 h ++ ':' :: fmt2 m) = [fmt2 h, fmt2 m] := by
      rw [pySplit_append ':' _ _ Fh6, pySplit_no_sep ':' _ Fm6]
    have hstrip : pyStrip (fmt2 h ++ ':' :: fmt2 m) = fmt2 h ++ ':' :: fmt2 m := by
      apply pyStrip_eq_self
      intro c hc
      rcases List.mem_append.mp hc with hc1 | hc2
      · exact Fh7 c hc1
      · rcases List.mem_cons.mp hc2 with rfl | hc3
        · decide
        · exact Fm7 c hc3
    have hstrip4 : pyStrip (fmt2 h ++ fmt2 m) = fmt2 h ++ fmt2 m := by
      apply pyStrip_eq_self
      intro c hc
      rcases List.mem_append.mp hc with hc1 | hc2
      · exact Fh7 c hc1
      · exact Fm7 c hc2
    have hne4 : fmt2 h ++ fmt2 m ≠ [] := by
      intro e
      have := congrArg List.length e
      simp [Fh1] at this
    have hnc4 : (fmt2 h ++ fmt2 m).contains ':' = false := by
      rw [← Bool.not_eq_true]
      intro hx
      rcases List.mem_append.mp ((strContains_iff _ _).mp hx) with hc | hc
      · exact Fh6 hc
      · exact Fm6 hc
    refine ⟨?_, ?_, ?_⟩
    · unfold parse_time_to_minutes
      rw [if_neg hne]
      simp only [hstrip, hmem, if_true, hsplit, Fh3, Fm3]
    · unfold parse_time_to_minutes
      rw [if_neg hne4]
      simp only [hstrip4, hnc4, Bool.false_eq_true, if_false]
      have hlen : (fmt2 h ++ fmt2 m).length = 4 := by
        simp [Fh1, Fm1]
      have hall : (fmt2 h ++ fmt2 m).all Char.isDigit = true := by
        simp only [List.all_append, Fh2, Fm2, Bool.and_self]
      rw [if_pos ⟨hlen, hall⟩]
      have htake : (fmt2 h ++ fmt2 m).take 2 = fmt2 h := by
        rw [← Fh1, List.take_left]
      have hdrop : (fmt2 h ++ fmt2 m).drop 2 = fmt2 m := by
        rw [← Fh1, List.drop_left]
      rw [htake, hdrop, Fh4, Fm4]
    · unfold parse_time
      rw [if_neg (by simp [hne, hmem])]
      simp only [hsplit, Fh3, Fm3]
  · intro s hcon
    unfold parse_time
    have hnot : ¬ (List.contains s ':' = true) := by
      rw [hcon]
      exact Bool.false_ne_true
    rw [if_pos (Or.inr hnot)]

/-- C8 witness: the amended theorem at `10:30` / `1030` / a shapeless string. -/
theorem c8_witness :
    parse_time_to_minutes "10:30".toList = some 630 ∧
    parse_time_to_minutes "1030".toList = some 630 ∧
    parse_time "10:30".toList = some 630 ∧
    parse_time "abc".toList = none := by
  have h := c8_time_parsers.1 10 30 (by norm_num) (by norm_num)
  have e1 : fmt2 10 ++ ':' :: fmt2 30 = "10:30".toList := by decide
  have e2 : fmt2 10 ++ fmt2 30 = "1030".toList := by decide
  rw [e1, e2] at h
  refine ⟨?_, ?_, ?_, c8_time_parsers.2 "abc".toList (by decide)⟩
  · rw [h.1]; norm_num
  · rw [h.2.1]; norm_num
  · rw [h.2.2]; norm_num

-- ===== C6 =====

/-- C6: re-parsing the flight report fully replaces the flight collection and
every derived index — the state after a second parse carries exactly the
second parse's data in all twelve flight-derived fields, and hence no flight
record of the first parse (absent from the second parse's output) survives. -/
theorem c6_reparse_replaces (st : ProcState) (rows₁ rows₂ : List Row) :
    (process_dayrep_step (process_dayrep_step st rows₁) rows₂).flights
        = (process_dayrep rows₂).flights ∧
    (process_dayrep_step (process_dayrep_step st rows₁) rows₂).flights_by_date
        = (process_dayrep rows₂).flights_by_date ∧
    (process_dayrep_step (process_dayrep_step st rows₁) rows₂).available_dates
        = (process_dayrep rows₂).available_dates ∧
    (process_dayrep_step (process_dayrep_step st rows₁) rows₂).crew_to_regs
        = (process_dayrep rows₂).crew_to_regs ∧
    (process_dayrep_step (process_dayrep_step st rows₁) rows₂).crew_to_regs_by_date
        = (process_dayrep rows₂).crew_to_regs_by_date ∧
    (process_dayrep_step (process_dayrep_step st rows₁) rows₂).crew_roles
        = (process_dayrep rows₂).crew_roles ∧
    (process_dayrep_step (process_dayrep_step st rows₁) rows₂).reg_flight_hours
        = (process_dayrep rows₂).reg_flight_hours ∧
    (process_dayrep_step (process_dayrep_step st rows₁) rows₂).reg_flight_hours_by_date
        = (process_dayrep rows₂).reg_flight_hours_by_date ∧
    (process_dayrep_step (process_dayrep_step st rows₁) rows₂).reg_flight_count
        = (process_dayrep rows₂).reg_flight_count ∧
    (process_dayrep_step (process_dayrep_step st rows₁) rows₂).reg_flight_count_by_date
        = (process_dayrep rows₂).reg_flight_count_by_date ∧
    (process_dayrep_step (process_dayrep_step st rows₁) rows₂).crew_group_rotations
        = (process_dayrep rows₂).crew_group_rotations ∧
    (process_dayrep_step (process_dayrep_step st rows₁) rows₂).crew_group_rotations_by_date
        = (process_dayrep rows₂).crew_group_rotations_by_date ∧
    (∀ f ∈ (process_dayrep_step st rows₁).flights,
       f ∉ (process_dayrep rows₂).flights →
       f ∉ (process_dayrep_step (process_dayrep_step st rows₁) rows₂).flights) := by
  refine ⟨rfl, rfl, rfl, rfl, rfl, rfl, rfl, rfl, rfl, rfl, rfl, rfl, ?_⟩
  intro f h1 h2
  exact h2

/-- Two one-row flight reports with non-overlapping data. -/
def dayrepRows1 : List Row :=
  [[ "15/01/26".toList, "VN-A01".toList, "VJ1".toList, "SGN".toList,
     "HAN".toList, "10:00".toList, "12:00".toList ]]

def dayrepRows2 : List Row :=
  [[ "16/01/26".toList, "VN-A02".toList, "VJ2".toList, "HAN".toList,
     "SGN".toList, "09:00".toList, "11:00".toList ]]

/-- The flight record produced by `dayrepRows1`. -/
def dayrepFlight1 : Flight :=
  { date := "15/01/26".toList, calendar_date := "15/01/26".toList,
    reg := "VN-A01".toList, ac_type := "A320".toList, flt := "VJ1".toList,
    dep := "SGN".toList, arr := "HAN".toList, std := "10:00".toList,
    sta := "12:00".toList, crew := [] }

/-- C6 witness: the flight parsed from the first report is present after the
first parse and absent from the state after the second parse. -/
theorem c6_witness :
    dayrepFlight1 ∈ (process_dayrep_step emptyProcState dayrepRows1).flights ∧
    dayrepFlight1 ∉
      (process_dayrep_step (process_dayrep_step emptyProcState dayrepRows1) dayrepRows2).flights := by
  refine ⟨by decide, ?_⟩
  exact (c6_reparse_replaces emptyProcState dayrepRows1 dayrepRows2).2.2.2.2.2.2.2.2.2.2.2.2
    dayrepFlight1 (by decide) (by decide)

-- ===== C3 =====

theorem rotation_detail_entry_spec (roles : List (Str × Str)) (fl : List Flight)
    (e : List Str × List Str) (d : RotationDetail)
    (h : rotation_detail_entry roles fl e = some d) :
    d.crew_ids = e.1 ∧ d.rotations = e.2.dedup.length - 1 ∧ 2 ≤ e.2.dedup.length := by
  unfold rotation_detail_entry at h
  split_ifs at h with hc
  · cases he : e.1 with
    | nil => rw [he] at h; cases h
    | cons first rest =>
      rw [he] at h
      injection h with h2
      subst h2
      exact ⟨rfl, rfl, hc⟩

/-- C3: in the active crew-group-rotation index (association list with the
dictionary's distinct, non-empty keys), every group with at least two
distinct registrations contributes exactly one to the snapshot's
`crew_rotation_count` and produces exactly one rotation entry whose
`rotations` field is `distinct − 1`; a group with a single distinct
registration contributes nothing and produces no entry. -/
theorem c3_crew_rotations (st : ProcState) (dc : Option (Str × Str))
    (hkeys : ∀ e ∈ st.crew_group_rotations, e.1 ≠ [])
    (hnodup : (st.crew_group_rotations.map Prod.fst).Nodup) :
    (calculate_metrics st none dc).crew_rotation_count
        = st.crew_group_rotations.countP (fun e => decide (2 ≤ e.2.dedup.length)) ∧
    (∀ e ∈ st.crew_group_rotations, 2 ≤ e.2.dedup.length →
       ∃ dtl, dtl ∈ rotation_details_of st.crew_group_rotations st.crew_roles st.flights ∧
         dtl.crew_ids = e.1 ∧ dtl.rotations = e.2.dedup.length - 1 ∧
         (∀ dtl', dtl' ∈ rotation_details_of st.crew_group_rotations st.crew_roles st.flights →
            dtl'.crew_ids = e.1 → dtl' = dtl)) ∧
    (∀ e ∈ st.crew_group_rotations, e.2.dedup.length < 2 →
       ∀ dtl ∈ rotation_details_of st.crew_group_rotations st.crew_roles st.flights,
         dtl.crew_ids ≠ e.1) := by
  refine ⟨?_, ?_, ?_⟩
  · show rotation_count_of st.crew_group_rotations = _
    unfold rotation_count_of
    rw [List.countP_eq_length_filter]
  · intro e he hcond
    obtain ⟨first, rest, hfr⟩ : ∃ a b, e.1 = a :: b := by
      cases h1 : e.1 with
      | nil => exact absurd h1 (hkeys e he)
      | cons a b => exact ⟨a, b, rfl⟩
    have hentry : rotation_detail_entry st.crew_roles st.flights e =
        some { crew_ids := e.1, crew_count := e.1.length,
               role := getMap first "UNK".toList st.crew_roles,
               regs := stSort strLt e.2.dedup,
               flights := stSort strLt
                 (((st.flights.filter (fun f => get_crew_set_key f.crew = e.1)).map Flight.flt).dedup),
               rotations := e.2.dedup.length - 1 } := by
      unfold rotation_detail_entry
      rw [if_pos hcond, hfr]
    refine ⟨_, List.mem_filterMap.mpr ⟨e, he, hentry⟩, rfl, rfl, ?_⟩
    intro dtl' hmem' hids'
    obtain ⟨e', he', hentry'⟩ := List.mem_filterMap.mp hmem'
    have hspec' := rotation_detail_entry_spec _ _ _ _ hentry'
    have heq : e' = e :=
      List.inj_on_of_nodup_map hnodup he' he (by rw [hspec'.1] at hids'; exact hids')
    rw [heq] at hentry'
    rw [hentry] at hentry'
    injection hentry' with h2
    exact h2.symm
  · intro e he hcond dtl hmem hids
    obtain ⟨e', he', hentry'⟩ := List.mem_filterMap.mp hmem
    have hspec' := rotation_detail_entry_spec _ _ _ _ hentry'
    have heq : e' = e :=
      List.inj_on_of_nodup_map hnodup he' he (by rw [hspec'.1] at hids; exact hids)
    rw [heq] at hspec'
    omega

/-- Index with one group that flew three distinct registrations and one that
flew a single registration. -/
def c3ExampleState : ProcState :=
  { emptyProcState with
    crew_group_rotations :=
      [([ "111".toList, "222".toList ], [ "A".toList, "B".toList, "C".toList ]),
       ([ "333".toList ], [ "A".toList ])],
    crew_roles := [( "111".toList, "CP".toList )] }

/-- C3 witness: registrations `["A","B","C"]` give `crew_rotation_count = 1`
and a unique entry with `rotations = 2`; the single-registration group
produces no entry. -/
theorem c3_witness :
    (calculate_metrics c3ExampleState none none).crew_rotation_count = 1 ∧
    (∃ dtl, dtl ∈ rotation_details_of c3ExampleState.crew_group_rotations
        c3ExampleState.crew_roles c3ExampleState.flights ∧
      dtl.crew_ids = [ "111".toList, "222".toList ] ∧ dtl.rotations = 2) ∧
    (∀ dtl ∈ rotation_details_of c3ExampleState.crew_group_rotations
        c3ExampleState.crew_roles c3ExampleState.flights,
      dtl.crew_ids ≠ [ "333".toList ]) := by
  have h := c3_crew_rotations c3ExampleState none (by decide) (by decide)
  refine ⟨by rw [h.1]; decide, ?_, ?_⟩
  · obtain ⟨dtl, hmem, hids, hrot, -⟩ :=
      h.2.1 ([ "111".toList, "222".toList ], [ "A".toList, "B".toList, "C".toList ])
        (by decide) (by decide)
    exact ⟨dtl, hmem, hids, by rw [hrot]; decide⟩
  · exact h.2.2 ([ "333".toList ], [ "A".toList ]) (by decide) (by decide)

-- ===== C9 =====

theorem live_fetch_phase_noop (o : AimsOracle) (data : Dashboard) (t : CalDate)
    (fl : List Flight)
    (hb : ∀ b, o.bulk = Except.ok b → b.success = false)
    (hl : ∀ l, o.legsRes = Except.ok l → l.success = false) :
    live_fetch_phase o data t fl = data := by
  unfold live_fetch_phase
  cases hbu : o.bulk with
  | error e => rfl
  | ok b =>
    cases hle : o.legsRes with
    | error e => simp [hb b hbu, hle]
    | ok l => simp [hb b hbu, hle, hl l hle]

theorem live_fetch_phase_partial (o : AimsOracle) (data : Dashboard) (t : CalDate)
    (fl : List Flight) (b : BulkStatusRes)
    (hb : o.bulk = Except.ok b) (hs : b.success = true)
    (hl : o.legsRes = Except.error ()) :
    live_fetch_phase o data t fl =
      { data with
        crew_schedule_summary :=
          { sl := b.sl, csl := b.csl, sby := b.sby, osby := b.osby,
            fgt := b.fgt, off := b.off, no_duty := 0 },
        crew_status_source := some
          ( "AIMS Live (Bulk - ".toList ++ natToStr b.sampled_crew ++
            '/' :: natToStr b.total_crew ++ ")".toList ) } := by
  unfold live_fetch_phase
  simp [hb, hs, hl]

/-- C9 amended: when the AIMS import fails, the client is unavailable, or no
overlay step succeeds (each fetch raising or reporting failure, the
date-parse failure cases included), the live override returns the
CSV-derived snapshot unchanged and unflagged, and no exception escapes the
component; but when the bulk-status step has already succeeded and the leg
fetch then raises, the returned snapshot keeps the live duty summary and
its `crew_status_source` provenance flag — it is neither unchanged nor
unflagged. -/
theorem c9_live_override (o : AimsOracle) (data : Dashboard) (fd : Option Str)
    (fl : List Flight) :
    (o.importOk = false → apply_live_crew_override o data fd fl = data) ∧
    (o.available = false → apply_live_crew_override o data fd fl = data) ∧
    ((∀ b, o.bulk = Except.ok b → b.success = false) →
     (∀ l, o.legsRes = Except.ok l → l.success = false) →
     apply_live_crew_override o data fd fl = data) ∧
    (∀ b d1 m1 y1 di mi yi, o.bulk = Except.ok b → b.success = true →
       o.legsRes = Except.error () →
       o.importOk = true → o.available = true →
       pySplit '/' (fd.getD o.today) = [d1, m1, y1] →
       pyInt d1 = some di → pyInt m1 = some mi → pyInt y1 = some yi →
       (1 ≤ di ∧ 1 ≤ mi ∧ 1 ≤ (if yi < 100 then yi + 2000 else yi) ∧
        (if yi < 100 then yi + 2000 else yi) ≤ 9999 ∧
        validDate ⟨(if yi < 100 then yi + 2000 else yi).toNat, mi.toNat, di.toNat⟩) →
       apply_live_crew_override o data fd fl =
         { data with
           crew_schedule_summary :=
             { sl := b.sl, csl := b.csl, sby := b.sby, osby := b.osby,
               fgt := b.fgt, off := b.off, no_duty := 0 },
           crew_status_source := some
             ( "AIMS Live (Bulk - ".toList ++ natToStr b.sampled_crew ++
               '/' :: natToStr b.total_crew ++ ")".toList ) }) := by
  refine ⟨?_, ?_, ?_, ?_⟩
  · intro h
    unfold apply_live_crew_override
    rw [if_pos (by simp [h])]
  · intro h
    by_cases hi : o.importOk = true
    · unfold apply_live_crew_override
      rw [if_neg (by simp [hi]), if_pos (by simp [h])]
    · unfold apply_live_crew_override
      rw [if_pos (by simpa using hi)]
  · intro hb hl
    unfold apply_live_crew_override
    dsimp only
    repeat' first
      | rfl
      | (exact live_fetch_phase_noop o data _ fl hb hl)
      | split
      | dsimp only
  · intro b d1 m1 y1 di mi yi hb hs hl hi ha hsp hd1 hm1 hy1 hcond
    unfold apply_live_crew_override
    rw [if_neg (by simp [hi]), if_neg (by simp [ha])]
    simp only [hsp, hd1, hm1, hy1]
    rw [if_neg (not_not_intro hcond)]
    exact live_fetch_phase_partial o data _ fl b hb hs hl

/-- An external-source episode in which the bulk-status fetch succeeds and
the leg-members fetch then raises. -/
def c9FailOracle : AimsOracle :=
  { importOk := true, available := true, today := "15/01/26".toList,
    bulk := Except.ok
      { success := true, sby := 7, osby := 0, sl := 2, csl := 0, fgt := 0, off := 0,
        sampled_crew := 5, total_crew := 10 },
    legsRes := Except.error () }

def c9BaseSnapshot : Dashboard := calculate_metrics emptyProcState none none

/-- C9 counterexample: a step of the overlay fails (the leg fetch raises),
yet the returned snapshot is *not* the CSV snapshot unchanged and it *does*
carry a live-data provenance flag: the earlier bulk-status overlay and its
`crew_status_source` tag remain. -/
theorem c9_counterexample :
    (apply_live_crew_override c9FailOracle c9BaseSnapshot (some "15/01/26".toList) []).crew_status_source
      = some "AIMS Live (Bulk - 5/10)".toList ∧
    c9BaseSnapshot.crew_status_source = none ∧
    (apply_live_crew_override c9FailOracle c9BaseSnapshot (some "15/01/26".toList) []).crew_schedule_summary.sby
      = 7 ∧
    c9BaseSnapshot.crew_schedule_summary.sby = 0 := by
  refine ⟨?_, rfl, ?_, rfl⟩ <;> decide

/-- C9 witness: with both fetches raising, the amended theorem returns the
snapshot unchanged. -/
theorem c9_witness :
    apply_live_crew_override
      { importOk := true, available := true, today := "15/01/26".toList,
        bulk := Except.error (), legsRes := Except.error () }
      c9BaseSnapshot none [] = c9BaseSnapshot := by
  exact (c9_live_override _ c9BaseSnapshot none []).2.2.1
    (fun b h => by cases h) (fun l h => by cases h)

-- ===== C2 =====

theorem daysInMonth_dec (y m : Nat) : daysInMonth y 12 = 31 ∧ 28 ≤ daysInMonth y m := by
  constructor
  · unfold daysInMonth; norm_num
  · unfold daysInMonth
    split_ifs <;> omega

/-- Calendar predecessor and successor are mutually inverse on valid dates
(with a predecessor to step back to): the code's "minus one calendar day" is
genuine calendar arithmetic, also across month and year boundaries. -/
theorem predDate_mk (Y M Dd : Nat) :
    predDate ⟨Y, M, Dd⟩ =
      if Dd > 1 then ⟨Y, M, Dd - 1⟩
      else if M > 1 then ⟨Y, M - 1, daysInMonth Y (M - 1)⟩
      else ⟨Y - 1, 12, 31⟩ := rfl

theorem nextDate_mk (Y M Dd : Nat) :
    nextDate ⟨Y, M, Dd⟩ =
      if Dd < daysInMonth Y M then ⟨Y, M, Dd + 1⟩
      else if M < 12 then ⟨Y, M + 1, 1⟩
      else ⟨Y + 1, 1, 1⟩ := rfl

theorem nextDate_predDate (D : CalDate) (hv : validDate D) (hy : 2 ≤ D.year) :
    nextDate (predDate D) = D := by
  cases D with
  | mk Y M Dd =>
    unfold validDate at hv
    dsimp only at hv hy
    obtain ⟨h1, h2, h3, h4, h5, h6⟩ := hv
    rw [predDate_mk]
    by_cases hd : Dd > 1
    · rw [if_pos hd, nextDate_mk, if_pos (by omega)]
      rw [CalDate.mk.injEq]
      refine ⟨rfl, rfl, by omega⟩
    · rw [if_neg hd]
      by_cases hm : M > 1
      · rw [if_pos hm, nextDate_mk, if_neg (by omega), if_pos (by omega)]
        rw [CalDate.mk.injEq]
        refine ⟨rfl, by omega, by omega⟩
      · have h31 : daysInMonth (Y - 1) 12 = 31 := (daysInMonth_dec (Y - 1) 1).1
        rw [if_neg hm, nextDate_mk, if_neg (by rw [h31]; omega), if_neg (by norm_num)]
        rw [CalDate.mk.injEq]
        refine ⟨by omega, by omega, by omega⟩

theorem fmt2_spec (n : Nat) (h : n < 100) :
    (fmt2 n).length = 2 ∧ (fmt2 n).all Char.isDigit = true ∧
    pyInt (fmt2 n) = some (n : Int) ∧ digitsVal (fmt2 n) = n ∧
    '/' ∉ fmt2 n ∧ ':' ∉ fmt2 n ∧ (∀ c ∈ fmt2 n, pyIsSpace c = false) :=
  fmt2_facts ⟨n, h⟩

theorem last2_year : ∀ k : Fin 101,
    strLast2 (natToStr (1999 + k.val)) = fmt2 ((1999 + k.val) % 100) := by
  decide

theorem last2_year_range (n : Nat) (h1 : 1999 ≤ n) (h2 : n ≤ 2099) :
    strLast2 (natToStr n) = fmt2 (n % 100) := by
  have hf := last2_year ⟨n - 1999, by omega⟩
  have e : 1999 + (n - 1999) = n := by omega
  rw [e] at hf
  exact hf

/-- C2: for every valid `DD/MM/YY` calendar date and departure-time string:
an unparseable time leaves the calendar date verbatim; a time in
[00:00, 04:00) yields the formatted previous calendar day (true calendar
arithmetic — its successor is the original date, across month/year
boundaries); a time from 04:00 on leaves the date unchanged. -/
theorem c2_operating_date (d m y : Nat) (ts : Str)
    (hd1 : 1 ≤ d) (hd2 : d ≤ daysInMonth (2000 + y) m)
    (hm1 : 1 ≤ m) (hm2 : m ≤ 12) (hy : y < 100) :
    (parse_time ts = none → get_operating_date (fmtDMY d m y) ts = fmtDMY d m y) ∧
    (∀ t : Int, parse_time ts = some t → 0 ≤ t → t < 240 →
       get_operating_date (fmtDMY d m y) ts
         = fmtDMY (predDate ⟨2000 + y, m, d⟩).day (predDate ⟨2000 + y, m, d⟩).month
             ((predDate ⟨2000 + y, m, d⟩).year % 100) ∧
       nextDate (predDate ⟨2000 + y, m, d⟩) = ⟨2000 + y, m, d⟩) ∧
    (∀ t : Int, parse_time ts = some t → 240 ≤ t →
       get_operating_date (fmtDMY d m y) ts = fmtDMY d m y) := by
  have hd100 : d < 100 := by
    have := (daysInMonth_dec (2000 + y) m).2
    have h31 : daysInMonth (2000 + y) m ≤ 31 := by
      unfold daysInMonth
      split_ifs <;> omega
    omega
  have hm100 : m < 100 := by omega
  obtain ⟨Fd1, Fd2, Fd3, Fd4, Fd5, Fd6, Fd7⟩ := fmt2_spec d hd100
  obtain ⟨Fm1, Fm2, Fm3, Fm4, Fm5, Fm6, Fm7⟩ := fmt2_spec m hm100
  obtain ⟨Fy1, Fy2, Fy3, Fy4, Fy5, Fy6, Fy7⟩ := fmt2_spec y hy
  have hsplit : pySplit '/' (fmtDMY d m y) = [fmt2 d, fmt2 m, fmt2 y] := by
    unfold fmtDMY
    simp only [List.append_assoc, List.cons_append]
    rw [pySplit_append '/' _ _ Fd5, pySplit_append '/' _ _ Fm5, pySplit_no_sep '/' _ Fy5]
  refine ⟨?_, ?_, ?_⟩
  · intro hnone
    unfold get_operating_date
    by_cases hts : fmtDMY d m y = [] <;> by_cases hts2 : ts = []
    · rw [if_pos hts2]
    · rw [if_neg hts2]
      simp only [hnone]
    · rw [if_pos hts2]
    · rw [if_neg hts2]
      simp only [hnone]
  · intro t hpt h0 h240
    have hts : ts ≠ [] := by
      intro e
      have hn : parse_time ([] : Str) = none := by decide
      rw [e, hn] at hpt
      exact Option.noConfusion hpt
    constructor
    · unfold get_operating_date
      rw [if_neg hts]
      simp only [hpt]
      rw [if_pos h240]
      simp only [hsplit, Fd3, Fm3, Fy3]
      have hylt : (y : Int) < 100 := by exact_mod_cast hy
      rw [if_pos hylt]
      have e1 : ((y : Int) + 2000).toNat = 2000 + y := by omega
      have e2 : ((m : Int)).toNat = m := by omega
      have e3 : ((d : Int)).toNat = d := by omega
      rw [e1, e2, e3]
      have hvd : validDate ⟨2000 + y, m, d⟩ :=
        ⟨by show 1 ≤ 2000 + y; omega, by show 2000 + y ≤ 9999; omega, hm1, hm2, hd1, hd2⟩
      have hcond : 1 ≤ (d : Int) ∧ 1 ≤ (m : Int) ∧ 1 ≤ (y : Int) + 2000 ∧
          (y : Int) + 2000 ≤ 9999 ∧ validDate ⟨2000 + y, m, d⟩ :=
        ⟨by exact_mod_cast hd1, by exact_mod_cast hm1, by omega, by omega, hvd⟩
      rw [if_pos hcond, if_neg (by rintro ⟨hya, -⟩; omega)]
      unfold fmtPyDate fmtDMY
      rw [last2_year_range (predDate ⟨2000 + y, m, d⟩).year ?lo ?hi]
      case lo =>
        unfold predDate
        split_ifs <;> simp <;> omega
      case hi =>
        unfold predDate
        split_ifs <;> simp <;> omega
    · exact nextDate_predDate ⟨2000 + y, m, d⟩
        ⟨by show 1 ≤ 2000 + y; omega, by show 2000 + y ≤ 9999; omega, hm1, hm2, hd1, hd2⟩
        (by show 2 ≤ 2000 + y; omega)
  · intro t hpt h240
    have hts : ts ≠ [] := by
      intro e
      have hn : parse_time ([] : Str) = none := by decide
      rw [e, hn] at hpt
      exact Option.noConfusion hpt
    unfold get_operating_date
    rw [if_neg hts]
    simp only [hpt]
    rw [if_neg (by omega)]

/-- C2 witness: `01/03/24 00:30` maps to the leap-day `29/02/24` (and the
successor of that predecessor is the original date), while a `10:00`
departure leaves its date unchanged. -/
theorem c2_witness :
    get_operating_date "01/03/24".toList "00:30".toList = "29/02/24".toList ∧
    nextDate ⟨2024, 2, 29⟩ = ⟨2024, 3, 1⟩ ∧
    get_operating_date "15/01/26".toList "10:00".toList = "15/01/26".toList := by
  have h := c2_operating_date 1 3 24 "00:30".toList (by decide) (by decide)
    (by decide) (by decide) (by decide)
  have h2 := h.2.1 30 (by decide) (by decide) (by decide)
  have e0 : fmtDMY 1 3 24 = "01/03/24".toList := by decide
  refine ⟨?_, ?_, ?_⟩
  · rw [← e0, h2.1]
    decide
  · have h5 := h2.2
    rw [show predDate ⟨2024, 3, 1⟩ = (⟨2024, 2, 29⟩ : CalDate) from by decide] at h5
    exact h5
  · have h3 := c2_operating_date 15 1 26 "10:00".toList (by decide) (by decide)
      (by decide) (by decide) (by decide)
    have h4 := h3.2.2 600 (by decide) (by decide)
    have e1 : fmtDMY 15 1 26 = "15/01/26".toList := by decide
    rw [← e1, h4]

-- ===== C7: matrix layout, day-18 SBY column =====

/-- Whether mapped day column `dc` holds a cell of `row` that the matrix row
loop classifies as duty `duty` (the counted condition of
src/data_processor.py:1172-1189). -/
def cellIsDuty (duty : Str) (row : Row) (dc : Nat × Str) : Bool :=
  decide (dc.1 < row.length ∧
    classify_duty (pyUpper (pyStrip (row.getD dc.1 []))) = some duty)

/-- Whether a matrix data row passes the guards of the row loop
(src/data_processor.py:1155-1170): at least two cells, id column inside the
row, and a non-empty id cell starting with a digit. -/
def rowValid (idIdx : Nat) (row : Row) : Bool :=
  decide (¬ row.length < 2 ∧ idIdx < row.length ∧
    ¬ (pyStrip (row.getD idIdx []) = [] ∨
       ¬ ((pyStrip (row.getD idIdx [])).headD ' ').isDigit))

/-- How many `SBY` cells of `row` the row loop adds to the global summary. -/
def rowSbyCount (cols : List (Nat × Str)) (idIdx : Nat) (row : Row) : Nat :=
  if rowValid idIdx row then cols.countP (cellIsDuty "SBY".toList row) else 0

/-- How many `SBY` cells of `row` the row loop adds under date `dd`. -/
def rowDateSbyCount (cols : List (Nat × Str)) (idIdx : Nat) (dd : Str) (row : Row) : Nat :=
  if rowValid idIdx row then
    cols.countP (fun c => cellIsDuty "SBY".toList row c && decide (c.2 = dd))
  else 0

theorem bumpSummary_sby (duty : Str) (s : ScheduleSummary) :
    (bumpSummary duty s).sby = s.sby + (if duty = "SBY".toList then 1 else 0) := by
  unfold bumpSummary
  split_ifs <;> simp_all

theorem bumpDuty_sby (duty : Str) (c : DutyCounts) :
    (bumpDuty duty c).sby = c.sby + (if duty = "SBY".toList then 1 else 0) := by
  unfold bumpDuty
  split_ifs <;> simp_all

theorem getMap_updMap [DecidableEq κ] (k k' : κ) (dflt : ν) (f : ν → ν)
    (m : List (κ × ν)) :
    getMap k' dflt (updMap k dflt f m)
      = if k = k' then f (getMap k' dflt m) else getMap k' dflt m := by
  induction m with
  | nil =>
    by_cases h : k = k' <;> simp [updMap, getMap, h]
  | cons kv m ih =>
    obtain ⟨k₀, v⟩ := kv
    simp only [updMap]
    by_cases h0 : k₀ = k
    · rw [if_pos h0]
      simp only [getMap]
      by_cases h1 : k₀ = k'
      · have hk : k = k' := h0 ▸ h1
        rw [if_pos h1, if_pos h1, if_pos hk]
      · have hk : ¬ k = k' := fun he => h1 (h0.trans he)
        rw [if_neg h1, if_neg h1, if_neg hk]
    · rw [if_neg h0]
      simp only [getMap]
      by_cases h1 : k₀ = k'
      · have hk : ¬ k = k' := fun he => h0 (h1.trans he.symm)
        rw [if_pos h1, if_pos h1, if_neg hk]
      · rw [if_neg h1, if_neg h1, ih]

theorem matrix_cell_step_sby (row : Row) (cid cn ba act pos : Str)
    (p : SchedState × Bool) (dc : Nat × Str) :
    ((matrix_cell_step row cid cn ba act pos p dc).1).summary.sby
      = p.1.summary.sby + (if cellIsDuty "SBY".toList row dc then 1 else 0) := by
  by_cases hcid : cellIsDuty "SBY".toList row dc
  · rw [if_pos hcid]
    have hh : dc.1 < row.length ∧
        classify_duty (pyUpper (pyStrip (row.getD dc.1 []))) = some "SBY".toList := by
      rwa [cellIsDuty, decide_eq_true_eq] at hcid
    have hne : pyUpper (pyStrip (row.getD dc.1 [])) ≠ [] := by
      intro he
      rw [he] at hh
      exact absurd hh.2 (by decide)
    simp only [matrix_cell_step]
    rw [if_pos hh.1, if_neg hne, hh.2]
    dsimp only
    rw [bumpSummary_sby, if_pos rfl]
  · rw [if_neg hcid]
    simp only [matrix_cell_step]
    by_cases h1 : dc.1 < row.length
    · rw [if_pos h1]
      by_cases h2 : pyUpper (pyStrip (row.getD dc.1 [])) = []
      · rw [if_pos h2]
        rfl
      · rw [if_neg h2]
        have hns : classify_duty (pyUpper (pyStrip (row.getD dc.1 []))) ≠ some "SBY".toList := by
          intro he
          exact hcid (by rw [cellIsDuty, decide_eq_true_eq]; exact ⟨h1, he⟩)
        cases hc : classify_duty (pyUpper (pyStrip (row.getD dc.1 []))) with
        | none => rfl
        | some duty =>
          have hd : duty ≠ "SBY".toList := fun he => hns (by rw [hc, he])
          dsimp only
          rw [bumpSummary_sby, if_neg hd]
    · rw [if_neg h1]
      rfl

theorem matrix_cell_step_date (row : Row) (cid cn ba act pos : Str) (dd : Str)
    (p : SchedState × Bool) (dc : Nat × Str) :
    (getMap dd zeroDuty ((matrix_cell_step row cid cn ba act pos p dc).1).by_date).sby
      = (getMap dd zeroDuty p.1.by_date).sby
        + (if cellIsDuty "SBY".toList row dc && decide (dc.2 = dd) then 1 else 0) := by
  by_cases hcid : cellIsDuty "SBY".toList row dc
  · have hh : dc.1 < row.length ∧
        classify_duty (pyUpper (pyStrip (row.getD dc.1 []))) = some "SBY".toList := by
      rwa [cellIsDuty, decide_eq_true_eq] at hcid
    have hne : pyUpper (pyStrip (row.getD dc.1 [])) ≠ [] := by
      intro he
      rw [he] at hh
      exact absurd hh.2 (by decide)
    simp only [matrix_cell_step]
    rw [if_pos hh.1, if_neg hne, hh.2]
    dsimp only
    rw [getMap_updMap]
    by_cases h3 : dc.2 = dd
    · rw [if_pos h3, bumpDuty_sby, if_pos rfl, hcid, decide_eq_true h3]
      rfl
    · rw [if_neg h3, hcid, decide_eq_false h3, Bool.true_and]
      rfl
  · have hf : cellIsDuty "SBY".toList row dc = false := by
      revert hcid
      cases cellIsDuty "SBY".toList row dc <;> simp
    rw [hf]
    simp only [Bool.false_and, Bool.false_eq_true, if_false]
    simp only [matrix_cell_step]
    by_cases h1 : dc.1 < row.length
    · rw [if_pos h1]
      by_cases h2 : pyUpper (pyStrip (row.getD dc.1 [])) = []
      · rw [if_pos h2]
        rfl
      · rw [if_neg h2]
        have hns : classify_duty (pyUpper (pyStrip (row.getD dc.1 []))) ≠ some "SBY".toList := by
          intro he
          exact hcid (by rw [cellIsDuty, decide_eq_true_eq]; exact ⟨h1, he⟩)
        cases hc : classify_duty (pyUpper (pyStrip (row.getD dc.1 []))) with
        | none => rfl
        | some duty =>
          have hd : duty ≠ "SBY".toList := fun he => hns (by rw [hc, he])
          dsimp only
          rw [getMap_updMap]
          by_cases h3 : dc.2 = dd
          · rw [if_pos h3, bumpDuty_sby, if_neg hd]
          · rw [if_neg h3]
            rfl
    · rw [if_neg h1]
      rfl

theorem foldl_cells_sby (row : Row) (cid cn ba act pos : Str) :
    ∀ (cols : List (Nat × Str)) (p : SchedState × Bool),
      (((cols.foldl (matrix_cell_step row cid cn ba act pos) p).1).summary.sby)
        = p.1.summary.sby + cols.countP (cellIsDuty "SBY".toList row) := by
  intro cols
  induction cols with
  | nil => intro p; simp
  | cons dc cols ih =>
    intro p
    rw [List.foldl_cons, List.countP_cons, ih, matrix_cell_step_sby]
    by_cases h : cellIsDuty "SBY".toList row dc <;> simp [h] <;> omega

theorem foldl_cells_date (row : Row) (cid cn ba act pos : Str) (dd : Str) :
    ∀ (cols : List (Nat × Str)) (p : SchedState × Bool),
      (getMap dd zeroDuty
          (((cols.foldl (matrix_cell_step row cid cn ba act pos) p).1).by_date)).sby
        = (getMap dd zeroDuty p.1.by_date).sby
          + cols.countP (fun c => cellIsDuty "SBY".toList row c && decide (c.2 = dd)) := by
  intro cols
  induction cols with
  | nil => intro p; simp
  | cons dc cols ih =>
    intro p
    rw [List.foldl_cons, List.countP_cons, ih, matrix_cell_step_date]
    by_cases h : cellIsDuty "SBY".toList row dc && decide (dc.2 = dd) <;>
      simp [h] <;> omega

theorem row_branch_sby (res : SchedState × Bool) :
    (if res.2 then res.1
     else { res.1 with
       summary := { res.1.summary with no_duty := res.1.summary.no_duty + 1 } }).summary.sby
      = res.1.summary.sby := by
  split <;> rfl

theorem row_branch_by_date (res : SchedState × Bool) :
    (if res.2 then res.1
     else { res.1 with
       summary := { res.1.summary with no_duty := res.1.summary.no_duty + 1 } }).by_date
      = res.1.by_date := by
  split <;> rfl

theorem process_matrix_row_sby (cols : List (Nat × Str)) (iI nI bI : Nat)
    (st : SchedState) (row : Row) :
    (process_matrix_row cols iI nI bI st row).summary.sby
      = st.summary.sby + rowSbyCount cols iI row := by
  simp only [process_matrix_row]
  by_cases h1 : row.length < 2
  · rw [if_pos h1]
    have hv : rowValid iI row = false := by
      rw [rowValid, decide_eq_false_iff_not]
      intro hcon
      exact hcon.1 h1
    simp [rowSbyCount, hv]
  · rw [if_neg h1]
    by_cases h2 : iI < row.length
    · rw [if_pos h2]
      by_cases h3 : pyStrip (row.getD iI []) = [] ∨
          ¬ ((pyStrip (row.getD iI [])).headD ' ').isDigit
      · rw [if_pos h3]
        have hv : rowValid iI row = false := by
          rw [rowValid, decide_eq_false_iff_not]
          intro hcon
          exact hcon.2.2 h3
        simp [rowSbyCount, hv]
      · rw [if_neg h3]
        have hv : rowValid iI row = true := by
          rw [rowValid, decide_eq_true_eq]
          exact ⟨h1, h2, h3⟩
        rw [row_branch_sby, foldl_cells_sby]
        simp [rowSbyCount, hv]
    · rw [if_neg h2]
      have hv : rowValid iI row = false := by
        rw [rowValid, decide_eq_false_iff_not]
        intro hcon
        exact h2 hcon.2.1
      simp [rowSbyCount, hv]

theorem process_matrix_row_date (cols : List (Nat × Str)) (iI nI bI : Nat) (dd : Str)
    (st : SchedState) (row : Row) :
    (getMap dd zeroDuty (process_matrix_row cols iI nI bI st row).by_date).sby
      = (getMap dd zeroDuty st.by_date).sby + rowDateSbyCount cols iI dd row := by
  simp only [process_matrix_row]
  by_cases h1 : row.length < 2
  · rw [if_pos h1]
    have hv : rowValid iI row = false := by
      rw [rowValid, decide_eq_false_iff_not]
      intro hcon
      exact hcon.1 h1
    simp [rowDateSbyCount, hv]
  · rw [if_neg h1]
    by_cases h2 : iI < row.length
    · rw [if_pos h2]
      by_cases h3 : pyStrip (row.getD iI []) = [] ∨
          ¬ ((pyStrip (row.getD iI [])).headD ' ').isDigit
      · rw [if_pos h3]
        have hv : rowValid iI row = false := by
          rw [rowValid, decide_eq_false_iff_not]
          intro hcon
          exact hcon.2.2 h3
        simp [rowDateSbyCount, hv]
      · rw [if_neg h3]
        have hv : rowValid iI row = true := by
          rw [rowValid, decide_eq_true_eq]
          exact ⟨h1, h2, h3⟩
        rw [row_branch_by_date, foldl_cells_date]
        simp [rowDateSbyCount, hv]
    · rw [if_neg h2]
      have hv : rowValid iI row = false := by
        rw [rowValid, decide_eq_false_iff_not]
        intro hcon
        exact h2 hcon.2.1
      simp [rowDateSbyCount, hv]

theorem process_matrix_sby_aux (cols : List (Nat × Str)) (iI nI bI : Nat) :
    ∀ (rows : List Row) (st : SchedState),
      ((List.foldl (process_matrix_row cols iI nI bI) st rows).summary.sby)
        = st.summary.sby + (rows.map (rowSbyCount cols iI)).sum := by
  intro rows
  induction rows with
  | nil => intro st; simp
  | cons r rows ih =>
    intro st
    rw [List.foldl_cons, ih, process_matrix_row_sby, List.map_cons, List.sum_cons]
    omega

theorem process_matrix_sby (cols : List (Nat × Str)) (iI nI bI : Nat) (rows : List Row) :
    (process_matrix cols iI nI bI rows).summary.sby
      = (rows.map (rowSbyCount cols iI)).sum := by
  unfold process_matrix
  rw [process_matrix_sby_aux, show emptySched.summary.sby = 0 from rfl]
  exact Nat.zero_add _

theorem process_matrix_date_aux (cols : List (Nat × Str)) (iI nI bI : Nat) (dd : Str) :
    ∀ (rows : List Row) (st : SchedState),
      (getMap dd zeroDuty (List.foldl (process_matrix_row cols iI nI bI) st rows).by_date).sby
        = (getMap dd zeroDuty st.by_date).sby + (rows.map (rowDateSbyCount cols iI dd)).sum := by
  intro rows
  induction rows with
  | nil => intro st; simp
  | cons r rows ih =>
    intro st
    rw [List.foldl_cons, ih, process_matrix_row_date, List.map_cons, List.sum_cons]
    omega

theorem process_matrix_date (cols : List (Nat × Str)) (iI nI bI : Nat) (dd : Str)
    (rows : List Row) :
    (getMap dd zeroDuty (process_matrix cols iI nI bI rows).by_date).sby
      = (rows.map (rowDateSbyCount cols iI dd)).sum := by
  unfold process_matrix
  rw [process_matrix_date_aux,
    show (getMap dd zeroDuty emptySched.by_date).sby = 0 from rfl]
  exact Nat.zero_add _

theorem countP_congr_mem (l : List α) (p q : α → Bool) (h : ∀ x ∈ l, p x = q x) :
    l.countP p = l.countP q := by
  induction l with
  | nil => simp
  | cons c l ih =>
    rw [List.countP_cons, List.countP_cons, h c (List.mem_cons_self c l),
      ih (fun x hx => h x (List.mem_cons_of_mem c hx))]

theorem countP_shift (l : List α) (p p' q : α → Bool)
    (h : ∀ c ∈ l, (q c = true → p c = true ∧ p' c = false) ∧ (q c = false → p c = p' c)) :
    l.countP p = l.countP p' + l.countP q := by
  induction l with
  | nil => simp
  | cons c l ih =>
    have hh := h c (List.mem_cons_self c l)
    have hr := ih (fun x hx => h x (List.mem_cons_of_mem c hx))
    simp only [List.countP_cons]
    rw [hr]
    cases hq : q c
    · rw [hh.2 hq]
      by_cases hp : p' c
      · simp [hp] <;> omega
      · simp [hp] <;> omega
    · obtain ⟨hp, hp'⟩ := hh.1 hq
      rw [hp, hp']
      simp <;> omega

theorem countP_fst_le_one {l : List (Nat × Str)} (h : (l.map Prod.fst).Nodup) (i : Nat) :
    l.countP (fun c => decide (c.1 = i)) ≤ 1 := by
  induction l with
  | nil => simp
  | cons c l ih =>
    rw [List.map_cons, List.nodup_cons] at h
    rw [List.countP_cons]
    by_cases hci : c.1 = i
    · have hz : l.countP (fun c => decide (c.1 = i)) = 0 := by
        rw [List.countP_eq_zero]
        intro x hx hpx
        simp only [decide_eq_true_eq] at hpx
        exact h.1 (by rw [hci, ← hpx]; exact List.mem_map_of_mem Prod.fst hx)
      rw [hz]
      simp [hci]
    · have hr := ih h.2
      simp only [hci, decide_eq_true_eq]
      simp [hci]
      exact hr

theorem countP_fst_eq_one {l : List (Nat × Str)} (h : (l.map Prod.fst).Nodup)
    {i : Nat} {d : Str} (hmem : (i, d) ∈ l) :
    l.countP (fun c => decide (c.1 = i)) = 1 := by
  have hle := countP_fst_le_one h i
  have hge : 0 < l.countP (fun c => decide (c.1 = i)) := by
    rw [List.countP_pos_iff]
    exact ⟨(i, d), hmem, by simp⟩
  omega

theorem filterMap_fst_sublist (g : Nat × Str → Option (Nat × Str))
    (hg : ∀ p q, g p = some q → q.1 = p.1) :
    ∀ l : List (Nat × Str), List.Sublist ((l.filterMap g).map Prod.fst) (l.map Prod.fst) := by
  intro l
  induction l with
  | nil => simp
  | cons p l ih =>
    rw [List.map_cons]
    cases hgp : g p with
    | none =>
      simp only [List.filterMap_cons, hgp]
      exact ih.cons p.1
    | some q =>
      simp only [List.filterMap_cons, hgp, List.map_cons]
      rw [hg p q hgp]
      exact ih.cons₂ p.1

theorem get?_mem_enumFrom (l : List α) : ∀ (n i : Nat) (x : α),
    l.get? i = some x → (n + i, x) ∈ l.enumFrom n := by
  induction l with
  | nil => intro n i x h; simp at h
  | cons y l ih =>
    intro n i x h
    cases i with
    | zero =>
      simp at h
      simp [List.enumFrom, h]
    | succ j =>
      simp only [List.get?] at h
      have hm := ih (n + 1) j x h
      have e : n + (j + 1) = n + 1 + j := by omega
      rw [e]
      exact List.mem_cons_of_mem _ hm

theorem get?_mem_enum (l : List α) (i : Nat) (x : α) (h : l.get? i = some x) :
    (i, x) ∈ l.enum := by
  have hm := get?_mem_enumFrom l 0 i x h
  simpa [List.enum] using hm

theorem build_date_cols_fst_nodup (hdr : Row) (m y : Nat) :
    ((build_date_cols hdr m y).map Prod.fst).Nodup := by
  have hn : (hdr.enum.map Prod.fst).Nodup := by
    rw [List.enum_map_fst]
    exact List.nodup_range _
  unfold build_date_cols
  refine hn.sublist (filterMap_fst_sublist _ ?_ hdr.enum)
  intro p q hpq
  dsimp only at hpq
  split at hpq
  · cases Option.some.inj hpq
    rfl
  · exact absurd hpq (by simp)

theorem mem_build_date_cols_18 (hdr : Row) (i : Nat) (hi : hdr.get? i = some "18".toList) :
    (i, "18/02/26".toList) ∈ build_date_cols hdr 2 2026 := by
  unfold build_date_cols
  refine List.mem_filterMap.mpr ⟨(i, "18".toList), get?_mem_enum hdr i "18".toList hi, ?_⟩
  dsimp only
  rw [if_pos (by decide)]
  rw [show fmt2 (digitsVal (pyStrip "18".toList)) ++ '/' :: fmt2 2 ++ '/' ::
    strLast2 (natToStr 2026) = "18/02/26".toList from by decide]

theorem row_cell_at (a : Row) (x : Str) (b : Row) :
    (a ++ x :: b).getD a.length [] = x := by
  rw [List.getD_append_right a (x :: b) [] a.length (le_refl _), Nat.sub_self]
  exact List.getD_cons_zero

theorem row_cell_ne (a : Row) (x y : Str) (b : Row) (j : Nat) (hj : j ≠ a.length) :
    (a ++ x :: b).getD j [] = (a ++ y :: b).getD j [] := by
  rcases Nat.lt_or_ge j a.length with h | h
  · rw [List.getD_append a (x :: b) [] j h, List.getD_append a (y :: b) [] j h]
  · have hgt : a.length < j := lt_of_le_of_ne h (Ne.symm hj)
    rw [List.getD_append_right a (x :: b) [] j h,
      List.getD_append_right a (y :: b) [] j h]
    have e : j - a.length = (j - a.length - 1) + 1 := by omega
    rw [e, List.getD_cons_succ, List.getD_cons_succ]

theorem cellIsDuty_sby_at (a b : Row) (d : Str) :
    cellIsDuty "SBY".toList (a ++ "SBY".toList :: b) (a.length, d) = true := by
  simp only [cellIsDuty]
  rw [decide_eq_true_eq]
  refine ⟨?_, ?_⟩
  · simp only [List.length_append, List.length_cons]
    omega
  · rw [row_cell_at]
    decide

theorem cellIsDuty_empty_at (a b : Row) (d : Str) :
    cellIsDuty "SBY".toList (a ++ ([] : Str) :: b) (a.length, d) = false := by
  simp only [cellIsDuty]
  rw [decide_eq_false_iff_not]
  rintro ⟨-, h2⟩
  rw [row_cell_at] at h2
  exact absurd h2 (by decide)

theorem cellIsDuty_congr (duty : Str) (a : Row) (x y : Str) (b : Row) (c : Nat × Str)
    (hc : c.1 ≠ a.length) :
    cellIsDuty duty (a ++ x :: b) c = cellIsDuty duty (a ++ y :: b) c := by
  simp only [cellIsDuty]
  rw [row_cell_ne a x y b c.1 hc,
    show (a ++ x :: b).length = (a ++ y :: b).length by simp]

/-- C7: for a crew-duty matrix whose header row has cell "18" at column `i`
and reference month 02 / year 2026, the extractor synthesizes the full date
"18/02/26" for that column; and for a data row for crew "1001" whose
column-`i` cell is "SBY", compared with the same row with that cell blank,
the global duty summary's SBY count and the per-date counters of "18/02/26"
are each exactly one higher, whatever the row's other day cells and the
other rows hold; and when no other mapped column of the row is an SBY cell,
the per-date entry for "18/02/26" of that single-row schedule has SBY
exactly 1. -/
theorem c7_matrix_day18_sby
    (hdr : Row) (i idIdx nameIdx baseIdx : Nat) (a b : Row) (pre post : List Row)
    (hi : hdr.get? i = some "18".toList)
    (hlen : a.length = i)
    (hid : idIdx < a.length)
    (hcell : pyStrip (a.getD idIdx []) = "1001".toList) :
    (i, "18/02/26".toList) ∈ build_date_cols hdr 2 2026 ∧
    (process_matrix (build_date_cols hdr 2 2026) idIdx nameIdx baseIdx
        (pre ++ (a ++ "SBY".toList :: b) :: post)).summary.sby
      = (process_matrix (build_date_cols hdr 2 2026) idIdx nameIdx baseIdx
          (pre ++ (a ++ ([] : Str) :: b) :: post)).summary.sby + 1 ∧
    (getMap "18/02/26".toList zeroDuty
        (process_matrix (build_date_cols hdr 2 2026) idIdx nameIdx baseIdx
          (pre ++ (a ++ "SBY".toList :: b) :: post)).by_date).sby
      = (getMap "18/02/26".toList zeroDuty
          (process_matrix (build_date_cols hdr 2 2026) idIdx nameIdx baseIdx
            (pre ++ (a ++ ([] : Str) :: b) :: post)).by_date).sby + 1 ∧
    ((∀ c ∈ build_date_cols hdr 2 2026, c.1 ≠ i →
        cellIsDuty "SBY".toList (a ++ "SBY".toList :: b) c = false) →
      (getMap "18/02/26".toList zeroDuty
        (process_matrix (build_date_cols hdr 2 2026) idIdx nameIdx baseIdx
          [a ++ "SBY".toList :: b]).by_date).sby = 1) := by
  have hmem : (i, "18/02/26".toList) ∈ build_date_cols hdr 2 2026 :=
    mem_build_date_cols_18 hdr i hi
  have hnd := build_date_cols_fst_nodup hdr 2 2026
  have hq1 : (build_date_cols hdr 2 2026).countP (fun c => decide (c.1 = i)) = 1 :=
    countP_fst_eq_one hnd hmem
  have hinj : ∀ c ∈ build_date_cols hdr 2 2026, c.1 = i → c = (i, "18/02/26".toList) := by
    intro c hc hci
    exact List.inj_on_of_nodup_map hnd hc hmem (by rw [hci])
  have hrv : ∀ x : Str, rowValid idIdx (a ++ x :: b) = true := by
    intro x
    rw [rowValid, decide_eq_true_eq]
    have hL : (a ++ x :: b).length = a.length + (b.length + 1) := by simp
    have hgd : (a ++ x :: b).getD idIdx [] = a.getD idIdx [] :=
      List.getD_append a (x :: b) [] idIdx hid
    refine ⟨?_, ?_, ?_⟩
    · rw [hL]; omega
    · rw [hL]; omega
    · rw [hgd, hcell]
      decide
  have hR2 : rowSbyCount (build_date_cols hdr 2 2026) idIdx (a ++ "SBY".toList :: b)
      = (build_date_cols hdr 2 2026).countP
          (cellIsDuty "SBY".toList (a ++ "SBY".toList :: b)) := by
    unfold rowSbyCount
    rw [hrv, if_pos rfl]
  have hR2' : rowSbyCount (build_date_cols hdr 2 2026) idIdx (a ++ ([] : Str) :: b)
      = (build_date_cols hdr 2 2026).countP
          (cellIsDuty "SBY".toList (a ++ ([] : Str) :: b)) := by
    unfold rowSbyCount
    rw [hrv, if_pos rfl]
  have hR3 : rowDateSbyCount (build_date_cols hdr 2 2026) idIdx "18/02/26".toList
      (a ++ "SBY".toList :: b)
      = (build_date_cols hdr 2 2026).countP
          (fun c => cellIsDuty "SBY".toList (a ++ "SBY".toList :: b) c &&
            decide (c.2 = "18/02/26".toList)) := by
    unfold rowDateSbyCount
    rw [hrv, if_pos rfl]
  have hR3' : rowDateSbyCount (build_date_cols hdr 2 2026) idIdx "18/02/26".toList
      (a ++ ([] : Str) :: b)
      = (build_date_cols hdr 2 2026).countP
          (fun c => cellIsDuty "SBY".toList (a ++ ([] : Str) :: b) c &&
            decide (c.2 = "18/02/26".toList)) := by
    unfold rowDateSbyCount
    rw [hrv, if_pos rfl]
  have hsplit2 : ∀ c ∈ build_date_cols hdr 2 2026,
      (decide (c.1 = i) = true →
        cellIsDuty "SBY".toList (a ++ "SBY".toList :: b) c = true ∧
        cellIsDuty "SBY".toList (a ++ ([] : Str) :: b) c = false) ∧
      (decide (c.1 = i) = false →
        cellIsDuty "SBY".toList (a ++ "SBY".toList :: b) c
          = cellIsDuty "SBY".toList (a ++ ([] : Str) :: b) c) := by
    intro c hc
    constructor
    · intro hqc
      have hci : c.1 = i := of_decide_eq_true hqc
      have hceq : c = (i, "18/02/26".toList) := hinj c hc hci
      subst hceq
      rw [← hlen]
      exact ⟨cellIsDuty_sby_at a b _, cellIsDuty_empty_at a b _⟩
    · intro hqc
      have hci : c.1 ≠ i := of_decide_eq_false hqc
      exact cellIsDuty_congr _ a _ _ b c (by rw [hlen]; exact hci)
  have hsplit3 : ∀ c ∈ build_date_cols hdr 2 2026,
      (decide (c.1 = i) = true →
        (cellIsDuty "SBY".toList (a ++ "SBY".toList :: b) c &&
          decide (c.2 = "18/02/26".toList)) = true ∧
        (cellIsDuty "SBY".toList (a ++ ([] : Str) :: b) c &&
          decide (c.2 = "18/02/26".toList)) = false) ∧
      (decide (c.1 = i) = false →
        (cellIsDuty "SBY".toList (a ++ "SBY".toList :: b) c &&
          decide (c.2 = "18/02/26".toList))
          = (cellIsDuty "SBY".toList (a ++ ([] : Str) :: b) c &&
            decide (c.2 = "18/02/26".toList))) := by
    intro c hc
    constructor
    · intro hqc
      have hci : c.1 = i := of_decide_eq_true hqc
      have hceq : c = (i, "18/02/26".toList) := hinj c hc hci
      subst hceq
      rw [← hlen]
      refine ⟨?_, ?_⟩
      · rw [cellIsDuty_sby_at, Bool.true_and]
        exact decide_eq_true rfl
      · rw [cellIsDuty_empty_at]
        exact Bool.false_and _
    · intro hqc
      have hci : c.1 ≠ i := of_decide_eq_false hqc
      rw [cellIsDuty_congr "SBY".toList a "SBY".toList ([] : Str) b c
        (by rw [hlen]; exact hci)]
  refine ⟨hmem, ?_, ?_, ?_⟩
  · rw [process_matrix_sby, process_matrix_sby]
    simp only [List.map_append, List.map_cons, List.sum_append, List.sum_cons]
    rw [hR2, hR2', countP_shift (build_date_cols hdr 2 2026)
      (cellIsDuty "SBY".toList (a ++ "SBY".toList :: b))
      (cellIsDuty "SBY".toList (a ++ ([] : Str) :: b))
      (fun c => decide (c.1 = i)) hsplit2, hq1]
    omega
  · rw [process_matrix_date, process_matrix_date]
    simp only [List.map_append, List.map_cons, List.sum_append, List.sum_cons]
    rw [hR3, hR3', countP_shift (build_date_cols hdr 2 2026)
      (fun c => cellIsDuty "SBY".toList (a ++ "SBY".toList :: b) c &&
        decide (c.2 = "18/02/26".toList))
      (fun c => cellIsDuty "SBY".toList (a ++ ([] : Str) :: b) c &&
        decide (c.2 = "18/02/26".toList))
      (fun c => decide (c.1 = i)) hsplit3, hq1]
    omega
  · intro hothers
    rw [process_matrix_date]
    simp only [List.map_cons, List.map_nil, List.sum_cons, List.sum_nil]
    rw [hR3]
    have hcg : ∀ c ∈ build_date_cols hdr 2 2026,
        (cellIsDuty "SBY".toList (a ++ "SBY".toList :: b) c &&
          decide (c.2 = "18/02/26".toList)) = decide (c.1 = i) := by
      intro c hc
      by_cases hci : c.1 = i
      · have hceq : c = (i, "18/02/26".toList) := hinj c hc hci
        subst hceq
        rw [← hlen, cellIsDuty_sby_at]
        simp
      · rw [hothers c hc hci, Bool.false_and]
        exact (decide_eq_false hci).symm
    rw [countP_congr_mem (build_date_cols hdr 2 2026)
      (fun c => cellIsDuty "SBY".toList (a ++ "SBY".toList :: b) c &&
        decide (c.2 = "18/02/26".toList))
      (fun c => decide (c.1 = i)) hcg, hq1]
    omega

/-- Witness for C7: header `ID, NAME, 18`, month 02, year 2026, and the single
data row `1001, JOHN, SBY`: the day column maps to "18/02/26", the global
summary counts SBY = 1 and the per-date counters of "18/02/26" count SBY = 1. -/
theorem c7_witness :
    (2, "18/02/26".toList) ∈ build_date_cols ["ID".toList, "NAME".toList, "18".toList] 2 2026 ∧
    (process_matrix (build_date_cols ["ID".toList, "NAME".toList, "18".toList] 2 2026) 0 1 1
        [["1001".toList, "JOHN".toList, "SBY".toList]]).summary.sby = 1 ∧
    (getMap "18/02/26".toList zeroDuty
        (process_matrix (build_date_cols ["ID".toList, "NAME".toList, "18".toList] 2 2026) 0 1 1
          [["1001".toList, "JOHN".toList, "SBY".toList]]).by_date).sby = 1 := by
  have h := c7_matrix_day18_sby ["ID".toList, "NAME".toList, "18".toList] 2 0 1 1
    ["1001".toList, "JOHN".toList] [] [] [] (by decide) (by decide) (by decide) (by decide)
  refine ⟨h.1, ?_, h.2.2.2 (by decide)⟩
  have hz : (process_matrix (build_date_cols ["ID".toList, "NAME".toList, "18".toList] 2 2026)
      0 1 1
      ([] ++ (["1001".toList, "JOHN".toList] ++ ([] : Str) :: []) :: [])).summary.sby = 0 := by
    decide
  exact h.2.1.trans (by rw [hz])
